import Mathlib

/-!
Shallow embedding of the data access and retrieval layer of the WikIA
educational content browser (curriculum index, content store, caching
coordinator / data manager, and search engine), together with theorems
checking the natural-language specification against the code.

Conventions of the embedding:
* Python dictionaries coming from JSON documents are modelled as
  association lists (first match wins on lookup; Python dicts have unique
  keys, so this is faithful).
* Machine floats in the relevance scoring are modelled as rationals; every
  constant involved (10.0, 2.0, 8.0, 5.0, 7.0, 3.0, 0.6) and every
  similarity ratio 2*M/T is exactly representable, and the score is a sum
  of few such terms, so the rational model agrees with the float code on
  the comparisons the program makes.
* Python object identity (needed for the cache idempotence claim) is
  modelled by tagging every instance produced by a store load with a fresh
  allocation counter drawn from the data manager state.
* Exceptions are modelled with `Except`; an operation that catches all
  exceptions and returns `None` is modelled by matching on the `Except`
  result.
-/

set_option maxRecDepth 10000

namespace WikIA

/-- Model of a JSON/Python value as stored inside sections of a topic
document (strings, numbers, booleans, lists, nested objects). -/
inductive PyVal where
  | str (s : String)
  | int (n : Int)
  | bool (b : Bool)
  | list (xs : List PyVal)
  | dict (d : List (String × PyVal))

/-- A Python dict with string keys, as parsed from a JSON object. -/
abbrev Dict := List (String × PyVal)

/-- Dictionary lookup: `d.get(k)` returning `None` when absent. -/
def dget (d : Dict) (k : String) : Option PyVal :=
  match d.find? (fun p => p.1 = k) with
  | some p => some p.2
  | none => none

/-- Dictionary lookup with a default: `d.get(k, v)`. -/
def dgetD (d : Dict) (k : String) (v : PyVal) : PyVal :=
  (dget d k).getD v

/-- Membership test `k in d` on a Python dict. -/
def dmem (d : Dict) (k : String) : Bool :=
  (dget d k).isSome

/-- Python truthiness of a dict: `bool(d)` is true iff `d` is non-empty. -/
def dtruthy (d : Dict) : Bool :=
  !d.isEmpty

/-! ### Python string primitives used by the code -/

/-- Python `str.lower()` restricted to the characters appearing in this
corpus: ASCII letters and the accented Spanish uppercase vowels and enye.
Other characters are left unchanged, as Python does. -/
def pyLowerChar (c : Char) : Char :=
  if 'A' ≤ c ∧ c ≤ 'Z' then Char.ofNat (c.toNat + 32)
  else if c = 'Á' then 'á'
  else if c = 'É' then 'é'
  else if c = 'Í' then 'í'
  else if c = 'Ó' then 'ó'
  else if c = 'Ú' then 'ú'
  else if c = 'Ñ' then 'ñ'
  else if c = 'Ü' then 'ü'
  else c

/-- Python `s.lower()`. -/
def pyLower (s : String) : String :=
  ⟨s.data.map pyLowerChar⟩

/-- Whitespace for Python `str.split()` and `str.strip()`. -/
def pySpace (c : Char) : Bool :=
  c = ' ' ∨ c = '\t' ∨ c = '\n' ∨ c = '\r'

/-- Python `s.strip()`: drop whitespace from both ends. -/
def pyStrip (s : String) : String :=
  ⟨((s.data.dropWhile pySpace).reverse.dropWhile pySpace).reverse⟩

/-- Split a character list on runs of whitespace, discarding empties
(atomic step of Python `str.split()` with no argument). -/
def splitChars : List Char → List (List Char)
  | [] => []
  | c :: cs =>
    if pySpace c then splitChars cs
    else
      match splitChars cs with
      | [] => [[c]]
      | w :: ws =>
        match cs with
        | [] => [[c]]
        | c2 :: _ => if pySpace c2 then [c] :: w :: ws else (c :: w) :: ws

/-- Python `s.split()` with no separator argument. -/
def pySplit (s : String) : List String :=
  (splitChars s.data).map fun w => ⟨w⟩

/-- Check that `pre` is an initial segment of `l` (Python `startswith` on
character lists). -/
def strStarts : List Char → List Char → Bool
  | [], _ => true
  | _ :: _, [] => false
  | a :: as, b :: bs => a = b && strStarts as bs

/-- Python substring test `needle in hay` on character lists. -/
def subChars (needle : List Char) : List Char → Bool
  | [] => strStarts needle []
  | c :: cs => strStarts needle (c :: cs) || subChars needle cs

/-- Python substring test `needle in hay` on strings. -/
def pyIn (needle hay : String) : Bool :=
  subChars needle.data hay.data

/-- Python `hay.startswith(needle)` on strings. -/
def pyStarts (hay needle : String) : Bool :=
  strStarts needle.data hay.data

/-! ### difflib.SequenceMatcher ratio

`SequenceMatcher(None, a, b).ratio()` is `2*M/T` where `T = len(a)+len(b)`
and `M` is the total size of the matching blocks found by the
Ratcliff-Obershelp recursion: find the longest contiguous matching block
(preferring, among maximal ones, the one starting earliest in `a` and then
earliest in `b`), and recurse on the pieces to its left and to its right.
With no junk (autojunk only fires for strings of length ≥ 200, far beyond
this corpus) that is the complete behaviour. -/

/-- Length of the longest common initial run of two character lists. -/
def comPre : List Char → List Char → Nat
  | a :: as, b :: bs => if a = b then comPre as bs + 1 else 0
  | _, _ => 0

/-- All candidate matches `(i, j, k)`: start `i` in `a`, start `j` in `b`,
and `k` the length of the run of equal characters from there. -/
def allMatches (a b : List Char) : List (Nat × Nat × Nat) :=
  (List.range (a.length + 1)).flatMap fun i =>
    (List.range (b.length + 1)).map fun j =>
      (i, j, comPre (a.drop i) (b.drop j))

/-- Pick the best match: maximal run length, ties broken by the smallest
start in `a`, then the smallest start in `b` (the SequenceMatcher rule).
`allMatches` enumerates candidates in ascending `(i, j)` order, so keeping
the first strictly-largest `k` implements the tie-break. -/
def bestMatch (a b : List Char) : Nat × Nat × Nat :=
  (allMatches a b).foldl
    (fun best c => if c.2.2 > best.2.2 then c else best) (0, 0, 0)

/-- Fuel-indexed worker for the Ratcliff-Obershelp matching-block total.
By `bestMatch_bounds`, when the recursion fires (`k ≠ 0`) the two pieces
passed to each recursive call have strictly smaller total length, so a
starting fuel of `a.length + b.length` is never exhausted; the fuel is
structural-recursion bookkeeping only. -/
def matchTotalF : Nat → List Char → List Char → Nat
  | 0, _, _ => 0
  | fuel + 1, a, b =>
    match bestMatch a b with
    | (i, j, k) =>
      if k = 0 then 0
      else
        k + matchTotalF fuel (a.take i) (b.take j) +
          matchTotalF fuel (a.drop (i + k)) (b.drop (j + k))

/-- Total size `M` of the matching blocks of the Ratcliff-Obershelp
recursive decomposition. -/
def matchTotal (a b : List Char) : Nat :=
  matchTotalF (a.length + b.length) a b

/-- SearchEngine._similarity: `difflib.SequenceMatcher(None, a, b).ratio()`
as a rational, `2*M/T` (and 1 when both strings are empty, as in difflib). -/
def similarity (a b : String) : ℚ :=
  if a.data.length + b.data.length = 0 then 1
  else (2 * matchTotal a.data b.data : ℚ) / (a.data.length + b.data.length)

/-! ### Data model: Semester / Subject / topic stubs (src/models) -/

/-- A topic stub held inside `Subject.temas`: in the source it is a dict
validated by `Subject.__post_init__` to contain the keys
`id`, `nombre`, `archivo`. -/
structure TemaInfo where
  id : String
  nombre : String
  archivo : String
deriving DecidableEq

/-- Subject (materia) after successful construction. -/
structure Subject where
  id : String
  nombre : String
  creditos : Int
  temas : List TemaInfo
deriving DecidableEq

/-- Semester after successful construction. -/
structure Semester where
  numero : Int
  nombre : String
  materias : List Subject
deriving DecidableEq

/-! ### Curriculum documents and CurriculumLoader (src/core/curriculum_loader.py) -/

/-- A topic-stub record of the curriculum document; each required key may
be missing. -/
structure TemaDoc where
  id : Option String
  nombre : Option String
  archivo : Option String

/-- A subject record of the curriculum document. `temas` and `creditos`
are read with defaults in the source (`[]`, `0`), while `id` and `nombre`
are accessed with `mat_data[...]` and raise `KeyError` when absent. -/
structure MatDoc where
  id : Option String
  nombre : Option String
  creditos : Option Int
  temas : List TemaDoc

/-- A semester record of the curriculum document. `materias` is read with
default `[]`; `numero` and `nombre` raise `KeyError` when absent. -/
structure SemDoc where
  numero : Option Int
  nombre : Option String
  materias : List MatDoc

/-- The curriculum document: the top-level `semestres` field may be
missing. -/
structure CurDoc where
  semestres : Option (List SemDoc)

/-- The curriculum file as seen by `CurriculumLoader.load`: absent on
disk, syntactically invalid JSON, or a parsed document. -/
inductive CurFile where
  | missing
  | malformed
  | doc (d : CurDoc)

/-- Exceptions raised while parsing curriculum records. -/
inductive PErr where
  | keyError (k : String)
  | valueError (m : String)

/-- Subject construction: `Subject(id=mat['id'], nombre=mat['nombre'],
creditos=mat.get('creditos', 0), temas=mat.get('temas', []))` followed by
`__post_init__` validation. -/
def mkSubject (mat : MatDoc) : Except PErr Subject := do
  let id ← match mat.id with
    | some v => pure v
    | none => throw (.keyError "id")
  let nombre ← match mat.nombre with
    | some v => pure v
    | none => throw (.keyError "nombre")
  let creditos := mat.creditos.getD 0
  if id = "" then throw (.valueError "id vacio")
  if nombre = "" then throw (.valueError "nombre vacio")
  if creditos < 0 then throw (.valueError "creditos negativos")
  let temas ← mat.temas.mapM fun t => do
    let tid ← match t.id with
      | some v => pure v
      | none => throw (PErr.valueError "tema sin id")
    let tnombre ← match t.nombre with
      | some v => pure v
      | none => throw (PErr.valueError "tema sin nombre")
    let tarchivo ← match t.archivo with
      | some v => pure v
      | none => throw (PErr.valueError "tema sin archivo")
    pure (TemaInfo.mk tid tnombre tarchivo)
  pure (Subject.mk id nombre creditos temas)

/-- Semester construction from a semester record and already-parsed
subjects: `Semester(numero=sem['numero'], nombre=sem['nombre'], materias)`
followed by `__post_init__` validation. -/
def mkSemester (sd : SemDoc) (materias : List Subject) : Except PErr Semester := do
  let numero ← match sd.numero with
    | some v => pure v
    | none => throw (.keyError "numero")
  let nombre ← match sd.nombre with
    | some v => pure v
    | none => throw (.keyError "nombre")
  if ¬ (1 ≤ numero ∧ numero ≤ 4) then throw (.valueError "numero fuera de rango")
  if nombre = "" then throw (.valueError "nombre vacio")
  pure (Semester.mk numero nombre materias)

/-- CurriculumLoader._parse_materias: parses subject records in order,
re-raising the first failure. -/
def parseMaterias : List MatDoc → Except PErr (List Subject)
  | [] => pure []
  | m :: rest => do
    let s ← mkSubject m
    let ss ← parseMaterias rest
    pure (s :: ss)

/-- CurriculumLoader._parse_semestres: starts from an empty list and
appends each parsed semester; a failure raises, leaving the semesters
already appended in place (the partially parsed prefix). Returns the
final `self.semestres` value and the raised error, if any. -/
def parseSemestres : List SemDoc → List Semester → List Semester × Option PErr
  | [], acc => (acc, none)
  | sd :: rest, acc =>
    match parseMaterias sd.materias with
    | .error e => (acc, some e)
    | .ok mats =>
      match mkSemester sd mats with
      | .error e => (acc, some e)
      | .ok sem => parseSemestres rest (acc ++ [sem])

/-- State of a CurriculumLoader: the committed semester list. -/
structure CLState where
  semestres : List Semester

/-- Outcome of `CurriculumLoader.load`: re-raised `FileNotFoundError`,
re-raised `json.JSONDecodeError`, `return False`, or `return True`. -/
inductive CLResult where
  | raisedNotFound
  | raisedDecode
  | retFalse
  | retTrue
deriving DecidableEq

/-- CurriculumLoader._validar_estructura: the `semestres` field must be
present and a non-empty list. -/
def validarEstructura (d : CurDoc) : Bool :=
  match d.semestres with
  | none => false
  | some [] => false
  | some (_ :: _) => true

/-- CurriculumLoader.load: checks the file, parses, validates structure,
then runs `_parse_semestres` (which mutates `self.semestres` as it goes);
a parse exception is caught by the outer handler, which returns False with
whatever `_parse_semestres` left behind. -/
def CLload (s : CLState) (file : CurFile) : CLResult × CLState :=
  match file with
  | .missing => (.raisedNotFound, s)
  | .malformed => (.raisedDecode, s)
  | .doc d =>
    if validarEstructura d then
      match d.semestres with
      | some sems =>
        match parseSemestres sems [] with
        | (acc, some _) => (.retFalse, { s with semestres := acc })
        | (acc, none) => (.retTrue, { s with semestres := acc })
      | none => (.retFalse, s)
    else (.retFalse, s)

/-- CurriculumLoader.get_semestres. -/
def CLget_semestres (s : CLState) : List Semester :=
  s.semestres

/-! ### Topic documents and the Content Store (src/core/content_loader.py,
src/models/topic.py, challenge.py, project.py)

A topic document is a JSON object whose top-level values (`metadata` and
the six sections) are themselves objects; every document of this corpus
has that shape, so the embedding fixes it. -/

/-- A parsed topic document: top-level keys mapping to objects. -/
abbrev TopicDoc := List (String × Dict)

/-- Lookup of a top-level entry of a topic document. -/
def docGet (d : TopicDoc) (k : String) : Option Dict :=
  match d.find? (fun p => p.1 = k) with
  | some p => some p.2
  | none => none

/-- A content file on disk: absent, syntactically invalid JSON, or a
parsed topic document. -/
inductive FileContent where
  | malformed
  | doc (d : TopicDoc)

/-- The content directory tree, as a map from relative paths to files. -/
abbrev FS := String → Option FileContent

/-- Exceptions surfaced by the Content Store: `FileNotFoundError`,
`json.JSONDecodeError`, `KeyError` (missing required section),
`ValueError` (invalid data), and `TypeError`/`AttributeError` from
iterating a malformed test-case field. -/
inductive LoadErr where
  | fileNotFound
  | jsonDecodeErr
  | keyErr (k : String)
  | valueErr (m : String)
  | otherErr (m : String)
deriving DecidableEq

/-- ContentLoader._construir_ruta relative to the content base path. -/
def construirRuta (semestre_num : Int) (materia_id tema_archivo : String) : String :=
  "semestre_" ++ toString semestre_num ++ "/" ++ materia_id ++ "/" ++ tema_archivo

/-- A full Topic as built by `Topic.__init__`. -/
structure Topic where
  metadata : Dict
  conceptos_clave : Dict
  utilidad_practica : Dict
  relaciones : Dict
  aplicaciones_industria : Dict
  roles_laborales : Dict
  reto_proyecto : Dict

/-- The seven keys `Topic.__init__` requires (metadata plus the six
numbered sections), in the order the source checks them. -/
def requiredSections : List String :=
  ["metadata", "1_conceptos_clave", "2_utilidad_practica", "3_relaciones",
   "4_aplicaciones_industria", "5_roles_laborales", "6_reto_proyecto"]

/-- Topic.__init__: raise `KeyError` on the first absent required section;
assign the sections; then require `metadata` truthy (non-empty) and the
key `titulo` present in it. -/
def Topic.init (data : TopicDoc) : Except LoadErr Topic :=
  match requiredSections.find? (fun sec => (docGet data sec).isNone) with
  | some sec => .error (.keyErr sec)
  | none =>
    let t : Topic :=
      { metadata := (docGet data "metadata").getD []
        conceptos_clave := (docGet data "1_conceptos_clave").getD []
        utilidad_practica := (docGet data "2_utilidad_practica").getD []
        relaciones := (docGet data "3_relaciones").getD []
        aplicaciones_industria := (docGet data "4_aplicaciones_industria").getD []
        roles_laborales := (docGet data "5_roles_laborales").getD []
        reto_proyecto := (docGet data "6_reto_proyecto").getD [] }
    if ¬ dtruthy t.metadata then .error (.valueErr "metadata vacio")
    else if ¬ dmem t.metadata "titulo" then .error (.valueErr "sin titulo")
    else .ok t

/-- Topic.tipo_reto: `self.reto_proyecto.get('tipo', 'conceptual')`. -/
def Topic.tipo_reto (t : Topic) : PyVal :=
  dgetD t.reto_proyecto "tipo" (.str "conceptual")

/-- Python equality of a value against a string literal (values of other
types never compare equal to a string). -/
def pyEqStr (v : PyVal) (s : String) : Bool :=
  match v with
  | .str x => x = s
  | _ => false

/-- Topic.es_reto_programacion. -/
def Topic.es_reto_programacion (t : Topic) : Bool :=
  pyEqStr t.tipo_reto "programacion"

/-- Topic.es_proyecto_conceptual. -/
def Topic.es_proyecto_conceptual (t : Topic) : Bool :=
  pyEqStr t.tipo_reto "conceptual"

/-- Topic.titulo: `self.metadata.get('titulo', 'Sin título')`. -/
def Topic.titulo (t : Topic) : PyVal :=
  dgetD t.metadata "titulo" (.str "Sin título")

/-- Topic.tiene_contenido_completo: all seven stored sections truthy. -/
def Topic.tiene_contenido_completo (t : Topic) : Bool :=
  dtruthy t.metadata && dtruthy t.conceptos_clave && dtruthy t.utilidad_practica &&
    dtruthy t.relaciones && dtruthy t.aplicaciones_industria &&
    dtruthy t.roles_laborales && dtruthy t.reto_proyecto

/-- A parsed test case of a programming challenge. -/
structure TestCase where
  entrada : PyVal
  salida_esperada : Option PyVal
  explicacion : PyVal
  es_visible : Bool

/-- Challenge, as built by `Challenge.__init__` (every field read with a
default, so construction never fails on a dict). -/
structure Challenge where
  tipo : PyVal
  titulo : PyVal
  descripcion : PyVal
  dificultad : PyVal
  codigo_inicial : PyVal
  solucion : PyVal
  pistas : PyVal
  casos_prueba_visibles : List TestCase
  casos_prueba_ocultos : List TestCase
  recursos_adicionales : PyVal
  lenguaje : PyVal
  tiempo_estimado : PyVal

/-- Parse one test-case entry: `caso.get(...)` requires a dict
(`AttributeError` otherwise). -/
def parseCaso (vis : Bool) (v : PyVal) : Except LoadErr TestCase :=
  match v with
  | .dict d =>
    .ok { entrada := dgetD d "entrada" (.dict [])
          salida_esperada := dget d "salida_esperada"
          explicacion := dgetD d "explicacion" (.str "")
          es_visible := vis }
  | _ => .error (.otherErr "caso no es dict")

/-- Iterate a test-case field: `for caso in data.get(key, [])` requires a
list (`TypeError` otherwise). -/
def parseCasos (vis : Bool) (v : PyVal) : Except LoadErr (List TestCase) :=
  match v with
  | .list xs => xs.mapM (parseCaso vis)
  | _ => .error (.otherErr "casos no es lista")

/-- Challenge.__init__ from the sixth-section dict. -/
def Challenge.init (data : Dict) : Except LoadErr Challenge := do
  let visibles ← parseCasos true (dgetD data "casos_prueba_visibles" (.list []))
  let ocultos ← parseCasos false (dgetD data "casos_prueba_ocultos" (.list []))
  pure
    { tipo := dgetD data "tipo" (.str "programacion")
      titulo := dgetD data "titulo" (.str "Reto sin título")
      descripcion := dgetD data "descripcion" (.str "")
      dificultad := dgetD data "dificultad" (.str "intermedio")
      codigo_inicial := dgetD data "codigo_inicial" (.str "")
      solucion := dgetD data "solucion_referencia" (.str "")
      pistas := dgetD data "pistas" (.list [])
      casos_prueba_visibles := visibles
      casos_prueba_ocultos := ocultos
      recursos_adicionales := dgetD data "recursos_adicionales" (.list [])
      lenguaje := dgetD data "lenguaje" (.str "python")
      tiempo_estimado := dgetD data "tiempo_estimado" (.str "30-45 minutos") }

/-- Project, as built by `Project.__init__`. -/
structure Project where
  tipo : PyVal
  titulo : PyVal
  descripcion : PyVal
  objetivos : PyVal
  pasos_sugeridos : PyVal
  tiempo_estimado : PyVal
  recursos_adicionales : PyVal
  campo_respuesta : PyVal

/-- Project.__init__: `ValueError` unless `data.get('tipo')` equals the
string `'conceptual'`; `ValueError` on a missing required field
(`tipo`, `titulo`, `descripcion`); otherwise assign with defaults. -/
def Project.init (data : Dict) : Except LoadErr Project := do
  match dget data "tipo" with
  | some (.str "conceptual") => pure ()
  | _ => throw (.valueErr "tipo debe ser conceptual")
  if ¬ dmem data "tipo" then throw (.valueErr "falta tipo")
  if ¬ dmem data "titulo" then throw (.valueErr "falta titulo")
  if ¬ dmem data "descripcion" then throw (.valueErr "falta descripcion")
  pure
    { tipo := dgetD data "tipo" (.str "")
      titulo := dgetD data "titulo" (.str "")
      descripcion := dgetD data "descripcion" (.str "")
      objetivos := dgetD data "objetivos" (.list [])
      pasos_sugeridos := dgetD data "pasos_sugeridos" (.list [])
      tiempo_estimado := dgetD data "tiempo_estimado" (.str "No especificado")
      recursos_adicionales := dgetD data "recursos_adicionales" (.list [])
      campo_respuesta := dgetD data "campo_respuesta" (.bool false) }

/-- ContentLoader.load_topic: `FileNotFoundError` when the file at the
deterministic path is absent, re-raised `JSONDecodeError` on a parse
failure, and otherwise `Topic(data)` with its exceptions re-raised. -/
def load_topic (fs : FS) (semestre_num : Int) (materia_id tema_archivo : String) :
    Except LoadErr Topic :=
  match fs (construirRuta semestre_num materia_id tema_archivo) with
  | none => .error .fileNotFound
  | some .malformed => .error .jsonDecodeErr
  | some (.doc d) => Topic.init d

/-- ContentLoader.load_challenge: load the topic; build a Challenge from
the sixth section when the topic is a programming challenge, `None`
otherwise; exceptions are logged and re-raised. -/
def load_challenge (fs : FS) (semestre_num : Int) (materia_id tema_archivo : String) :
    Except LoadErr (Option Challenge) := do
  let topic ← load_topic fs semestre_num materia_id tema_archivo
  if topic.es_reto_programacion then
    let c ← Challenge.init topic.reto_proyecto
    pure (some c)
  else
    pure none

/-- ContentLoader.load_project: symmetric to load_challenge for the
conceptual variant. -/
def load_project (fs : FS) (semestre_num : Int) (materia_id tema_archivo : String) :
    Except LoadErr (Option Project) := do
  let topic ← load_topic fs semestre_num materia_id tema_archivo
  if topic.es_proyecto_conceptual then
    let p ← Project.init topic.reto_proyecto
    pure (some p)
  else
    pure none

/-- ContentLoader.existe_archivo. -/
def existe_archivo (fs : FS) (semestre_num : Int) (materia_id tema_archivo : String) : Bool :=
  (fs (construirRuta semestre_num materia_id tema_archivo)).isSome

/-- ContentLoader.obtener_metadatos: any exception (absent file, parse
failure) is caught and yields `None`; otherwise
`data.get('metadata', {})`. -/
def obtener_metadatos (fs : FS) (semestre_num : Int) (materia_id tema_archivo : String) :
    Option Dict :=
  match fs (construirRuta semestre_num materia_id tema_archivo) with
  | none => none
  | some .malformed => none
  | some (.doc d) => some ((docGet d "metadata").getD [])

/-! ### Coordinator / DataManager (src/core/data_manager.py)

Caches are Python dicts keyed by the composite cache key; they are
modelled as insertion-ordered association lists with overwriting
assignment. Python object identity of cached Topic instances is modelled
by an allocation counter `nextId` in the state: every Topic produced by a
Store load is wrapped in a `TopicInst` carrying a fresh id.
`storeLoads` instruments the state with the number of Store document
loads performed, to express "no new Store load happened". -/

/-- A Topic instance together with its allocation identity. -/
structure TopicInst where
  data : Topic
  iid : ℕ

/-- Assoc-list lookup (Python `cache[key]` / `key in cache`). -/
def aget {α : Type} (m : List (String × α)) (k : String) : Option α :=
  match m.find? (fun p => p.1 = k) with
  | some p => some p.2
  | none => none

/-- Assoc-list overwriting assignment (Python `cache[key] = v`): replaces
in place when the key exists, appends otherwise. -/
def aset {α : Type} (m : List (String × α)) (k : String) (v : α) : List (String × α) :=
  match m with
  | [] => [(k, v)]
  | (k2, v2) :: rest => if k2 = k then (k, v) :: rest else (k2, v2) :: aset rest k v

/-- State of a DataManager. -/
structure DMState where
  fs : FS
  semestres : List Semester
  topics : List (String × TopicInst)
  challenges : List (String × Challenge)
  projects : List (String × Project)
  metadataC : List (String × Dict)
  cache_hits : ℕ
  cache_misses : ℕ
  topics_loaded : ℕ
  challenges_loaded : ℕ
  projects_loaded : ℕ
  inicializado : Bool
  nextId : ℕ
  storeLoads : ℕ

/-- DataManager._generar_cache_key. -/
def generarCacheKey (semestre_num : Int) (materia_id tema_archivo : String) : String :=
  toString semestre_num ++ "_" ++ materia_id ++ "_" ++ tema_archivo

/-- DataManager.initialize: loads the curriculum with a fresh loader;
`False` (state unchanged apart from the semester list assignment order in
the source) when the load fails, raises, or yields no semesters. -/
def initializeDM (s : DMState) (cur : CurFile) : Bool × DMState :=
  match CLload ⟨[]⟩ cur with
  | (.retTrue, cl) =>
    if cl.semestres.isEmpty then (false, { s with semestres := cl.semestres })
    else (true, { s with semestres := cl.semestres, inicializado := true })
  | (_, _) => (false, s)

/-- DataManager.get_semestres: readiness-guarded. -/
def get_semestres (s : DMState) : List Semester :=
  if s.inicializado then s.semestres else []

/-- DataManager.get_semestre: readiness-guarded linear scan. -/
def get_semestre (s : DMState) (numero : Int) : Option Semester :=
  if s.inicializado then s.semestres.find? (fun sem => sem.numero = numero)
  else none

/-- Semester.get_materia_by_id. -/
def getMateriaById (sem : Semester) (materia_id : String) : Option Subject :=
  sem.materias.find? (fun m => m.id = materia_id)

/-- DataManager.get_materia: readiness-guarded composed lookup. -/
def get_materia (s : DMState) (semestre_num : Int) (materia_id : String) : Option Subject :=
  if s.inicializado then
    match s.semestres.find? (fun sem => sem.numero = semestre_num) with
    | some sem => getMateriaById sem materia_id
    | none => none
  else none

/-- DataManager.get_topic: readiness guard; cache hit returns the stored
instance and counts a hit; otherwise count a miss, load from the Store,
cache the result on success (an exception is caught and yields `None`,
leaving the cache untouched). `force_reload` skips the cache lookup. -/
def get_topic (s : DMState) (semestre_num : Int) (materia_id tema_archivo : String)
    (force_reload : Bool) : Option TopicInst × DMState :=
  if ¬ s.inicializado then (none, s)
  else
    let key := generarCacheKey semestre_num materia_id tema_archivo
    match (if force_reload then none else aget s.topics key) with
    | some inst => (some inst, { s with cache_hits := s.cache_hits + 1 })
    | none =>
      let s1 := { s with cache_misses := s.cache_misses + 1,
                         storeLoads := s.storeLoads + 1 }
      match load_topic s.fs semestre_num materia_id tema_archivo with
      | .ok t =>
        let inst : TopicInst := ⟨t, s1.nextId⟩
        (some inst,
          { s1 with topics := aset s1.topics key inst,
                    topics_loaded := s1.topics_loaded + 1,
                    nextId := s1.nextId + 1 })
      | .error _ => (none, s1)

/-- DataManager.get_challenge: readiness guard; hit counts a cache hit;
the miss path does not touch the miss counter in the source; only a
non-absent Challenge is cached; exceptions yield `None`. -/
def get_challenge (s : DMState) (semestre_num : Int) (materia_id tema_archivo : String)
    (force_reload : Bool) : Option Challenge × DMState :=
  if ¬ s.inicializado then (none, s)
  else
    let key := generarCacheKey semestre_num materia_id tema_archivo
    match (if force_reload then none else aget s.challenges key) with
    | some c => (some c, { s with cache_hits := s.cache_hits + 1 })
    | none =>
      let s1 := { s with storeLoads := s.storeLoads + 1 }
      match load_challenge s.fs semestre_num materia_id tema_archivo with
      | .ok (some c) =>
        (some c, { s1 with challenges := aset s1.challenges key c,
                           challenges_loaded := s1.challenges_loaded + 1 })
      | .ok none => (none, s1)
      | .error _ => (none, s1)

/-- DataManager.get_project: symmetric to get_challenge. -/
def get_project (s : DMState) (semestre_num : Int) (materia_id tema_archivo : String)
    (force_reload : Bool) : Option Project × DMState :=
  if ¬ s.inicializado then (none, s)
  else
    let key := generarCacheKey semestre_num materia_id tema_archivo
    match (if force_reload then none else aget s.projects key) with
    | some p => (some p, { s with cache_hits := s.cache_hits + 1 })
    | none =>
      let s1 := { s with storeLoads := s.storeLoads + 1 }
      match load_project s.fs semestre_num materia_id tema_archivo with
      | .ok (some p) =>
        (some p, { s1 with projects := aset s1.projects key p,
                           projects_loaded := s1.projects_loaded + 1 })
      | .ok none => (none, s1)
      | .error _ => (none, s1)

/-- DataManager.get_metadatos_tema: performs NO readiness check in the
source; consults the metadata cache, loads otherwise, and caches only a
truthy (non-empty) result. -/
def get_metadatos_tema (s : DMState) (semestre_num : Int) (materia_id tema_archivo : String) :
    Option Dict × DMState :=
  let key := "meta_" ++ generarCacheKey semestre_num materia_id tema_archivo
  match aget s.metadataC key with
  | some md => (some md, s)
  | none =>
    match obtener_metadatos s.fs semestre_num materia_id tema_archivo with
    | some md =>
      (some md,
        if md.isEmpty then s else { s with metadataC := aset s.metadataC key md })
    | none => (none, s)

/-- CurriculumLoader.buscar_materias over a semester list. -/
def buscarMateriasIn (semestres : List Semester) (query : String) : List (Int × Subject) :=
  let ql := pyLower query
  semestres.flatMap fun sem =>
    (sem.materias.filter fun m => pyIn ql (pyLower m.nombre) || pyIn ql (pyLower m.id)).map
      fun m => (sem.numero, m)

/-- The record produced for every matching topic by
`CurriculumLoader.buscar_temas`. -/
structure TemaMatch where
  semestre : Int
  semestre_nombre : String
  materia_id : String
  materia_nombre : String
  tema_id : String
  tema_nombre : String
  archivo : String
deriving DecidableEq

/-- CurriculumLoader.buscar_temas over a semester list (delegating to
`Subject.buscar_temas`, which matches the query against topic name or
id, case-insensitively). -/
def buscarTemasIn (semestres : List Semester) (query : String) : List TemaMatch :=
  let ql := pyLower query
  semestres.flatMap fun sem =>
    sem.materias.flatMap fun mat =>
      (mat.temas.filter fun t => pyIn ql (pyLower t.nombre) || pyIn ql (pyLower t.id)).map
        fun t =>
          { semestre := sem.numero, semestre_nombre := sem.nombre,
            materia_id := mat.id, materia_nombre := mat.nombre,
            tema_id := t.id, tema_nombre := t.nombre, archivo := t.archivo }

/-- DataManager.buscar_materias: readiness-guarded delegation. -/
def buscar_materias (s : DMState) (query : String) : List (Int × Subject) :=
  if s.inicializado then buscarMateriasIn s.semestres query else []

/-- DataManager.buscar_temas: readiness-guarded delegation. -/
def buscar_temas (s : DMState) (query : String) : List TemaMatch :=
  if s.inicializado then buscarTemasIn s.semestres query else []

/-- The dictionary returned by DataManager.get_cache_stats. -/
structure CacheStats where
  topics_cached : ℕ
  challenges_cached : ℕ
  projects_cached : ℕ
  metadata_cached : ℕ
  cache_hits : ℕ
  cache_misses : ℕ
  hit_rate : ℚ
  topics_loaded : ℕ
  challenges_loaded : ℕ
  projects_loaded : ℕ
deriving DecidableEq

/-- DataManager.get_cache_stats: `hit_rate = hits / (hits + misses)` when
there has been at least one access, else 0. -/
def get_cache_stats (s : DMState) : CacheStats :=
  { topics_cached := s.topics.length
    challenges_cached := s.challenges.length
    projects_cached := s.projects.length
    metadata_cached := s.metadataC.length
    cache_hits := s.cache_hits
    cache_misses := s.cache_misses
    hit_rate :=
      if s.cache_hits + s.cache_misses > 0 then
        (s.cache_hits : ℚ) / ((s.cache_hits : ℚ) + (s.cache_misses : ℚ))
      else 0
    topics_loaded := s.topics_loaded
    challenges_loaded := s.challenges_loaded
    projects_loaded := s.projects_loaded }

/-! ### Search engine (src/core/search_engine.py) -/

/-- Inner loop of the word-match factor: scan topic-name words, add 3.0
and `break` at the first word containing or contained in the query
word. -/
def innerWordLoop (qw : List Char) : List (List Char) → ℚ
  | [] => 0
  | tw :: rest => if subChars qw tw || subChars tw qw then 3 else innerWordLoop qw rest

/-- Outer loop of the word-match factor: query words shorter than 3 are
skipped with `continue`. -/
def wordLoop (tws : List (List Char)) : List (List Char) → ℚ
  | [] => 0
  | qw :: rest =>
    (if qw.length < 3 then 0 else innerWordLoop qw tws) + wordLoop tws rest

/-- SearchEngine._calcular_relevancia: the additive relevance score of a
topic stub against a query (already lowercased and stripped by `search`).
`minSim` is the engine attribute `min_similarity` (default 0.6). -/
def calcularRelevancia (minSim : ℚ) (query : String) (tema : TemaInfo)
    (materia_nombre : String) : ℚ :=
  let tema_nombre := pyLower tema.nombre
  let tema_id := pyLower tema.id
  let materia_lower := pyLower materia_nombre
  let score1 : ℚ :=
    if pyIn query tema_nombre then
      10 + (if pyStarts tema_nombre query then 2 else 0)
    else 0
  let score2 : ℚ := if pyIn query tema_id then 8 else 0
  let score3 : ℚ := if pyIn query materia_lower then 5 else 0
  let simNombre := similarity query tema_nombre
  let score4 : ℚ := if simNombre ≥ minSim then simNombre * 7 else 0
  let simId := similarity query tema_id
  let score5 : ℚ := if simId ≥ minSim then simId * 5 else 0
  let score6 : ℚ := wordLoop (splitChars tema_nombre.data) (splitChars query.data)
  score1 + score2 + score3 + score4 + score5 + score6

/-- A result record produced by SearchEngine.search. `tipo_reto` is the
extra entry added only when the challenge-type filter is set. -/
structure SResult where
  relevancia : ℚ
  semestre : Int
  semestre_nombre : String
  materia_id : String
  materia_nombre : String
  tema_id : String
  tema_nombre : String
  archivo : String
  dificultad : PyVal
  tipo_reto : Option PyVal

/-- Process one topic stub inside `search`: score it, fetch metadata,
apply the difficulty and challenge-type filters (each `continue` becomes
`none`), and build the result record. Mirrors the loop body of
SearchEngine.search, threading the DataManager state mutated by
`get_metadatos_tema` and `get_topic`. -/
def searchTema (minSim : ℚ) (q : String) (dificultad tipo_reto_f : Option String)
    (sem : Semester) (mat : Subject) (tema : TemaInfo) (st : DMState) :
    Option SResult × DMState :=
  let relevancia := calcularRelevancia minSim q tema mat.nombre
  if relevancia > 0 then
    let (metadatos, st1) := get_metadatos_tema st sem.numero mat.id tema.archivo
    let metaTruthy := match metadatos with
      | some m => !m.isEmpty
      | none => false
    let difMismatch : Bool :=
      match dificultad, metadatos with
      | some d, some m =>
        d != "" && metaTruthy &&
          (match dget m "dificultad" with
           | some v => !(pyEqStr v d)
           | none => true)
      | _, _ => false
    if difMismatch then (none, st1)
    else
      let difField : PyVal :=
        if metaTruthy then
          dgetD ((metadatos).getD []) "dificultad" (.str "no especificada")
        else .str "desconocida"
      let base : SResult :=
        { relevancia := relevancia, semestre := sem.numero,
          semestre_nombre := sem.nombre, materia_id := mat.id,
          materia_nombre := mat.nombre, tema_id := tema.id,
          tema_nombre := tema.nombre, archivo := tema.archivo,
          dificultad := difField, tipo_reto := none }
      match tipo_reto_f with
      | some tr =>
        if tr ≠ "" then
          let (topic, st2) := get_topic st1 sem.numero mat.id tema.archivo false
          let tipoMismatch : Bool :=
            match topic with
            | some ti => !(pyEqStr ti.data.tipo_reto tr)
            | none => false
          let trField : PyVal :=
            match topic with
            | some ti => ti.data.tipo_reto
            | none => .str "desconocido"
          if tipoMismatch then (none, st2)
          else (some { base with tipo_reto := some trField }, st2)
        else (some base, st1)
      | none => (some base, st1)
  else (none, st)

/-- Fold of `searchTema` over the topic stubs of one subject. -/
def searchTemas (minSim : ℚ) (q : String) (dificultad tipo_reto_f : Option String)
    (sem : Semester) (mat : Subject) :
    List TemaInfo → DMState → List SResult × DMState
  | [], st => ([], st)
  | t :: ts, st =>
    let (r, st1) := searchTema minSim q dificultad tipo_reto_f sem mat t st
    let (rs, st2) := searchTemas minSim q dificultad tipo_reto_f sem mat ts st1
    (match r with
     | some x => x :: rs
     | none => rs, st2)

/-- Fold over the subjects of one semester, applying the subject filter
(`if materia_id and materia.id != materia_id: continue` — note the Python
truthiness of the filter). -/
def searchMats (minSim : ℚ) (q : String) (materia_f dificultad tipo_reto_f : Option String)
    (sem : Semester) : List Subject → DMState → List SResult × DMState
  | [], st => ([], st)
  | m :: ms, st =>
    let skip : Bool := match materia_f with
      | some mf => mf != "" && m.id != mf
      | none => false
    if skip then searchMats minSim q materia_f dificultad tipo_reto_f sem ms st
    else
      let (rs1, st1) := searchTemas minSim q dificultad tipo_reto_f sem m m.temas st
      let (rs2, st2) := searchMats minSim q materia_f dificultad tipo_reto_f sem ms st1
      (rs1 ++ rs2, st2)

/-- Fold over the semesters, applying the semester filter
(`if semestre and sem.numero != semestre: continue` — a filter value of 0
is falsy and therefore not applied). -/
def searchSems (minSim : ℚ) (q : String) (semestre_f : Option Int)
    (materia_f dificultad tipo_reto_f : Option String) :
    List Semester → DMState → List SResult × DMState
  | [], st => ([], st)
  | sem :: rest, st =>
    let skip : Bool := match semestre_f with
      | some sf => sf != 0 && sem.numero != sf
      | none => false
    if skip then searchSems minSim q semestre_f materia_f dificultad tipo_reto_f rest st
    else
      let (rs1, st1) := searchMats minSim q materia_f dificultad tipo_reto_f sem sem.materias st
      let (rs2, st2) := searchSems minSim q semestre_f materia_f dificultad tipo_reto_f rest st1
      (rs1 ++ rs2, st2)

/-- Stable descending insertion by relevance: a new element goes after
every earlier element of greater-or-equal score, matching Python
`list.sort(key=..., reverse=True)` (a stable sort). -/
def insertDesc (x : SResult) : List SResult → List SResult
  | [] => [x]
  | y :: ys => if x.relevancia > y.relevancia then x :: y :: ys else y :: insertDesc x ys

/-- Stable descending sort by relevance. -/
def sortDesc (l : List SResult) : List SResult :=
  l.foldl (fun acc x => insertDesc x acc) []

/-- SearchEngine.search: empty for a blank or shorter-than-2 query;
lowercases and strips the query; scans all stubs passing the filters;
keeps records of strictly positive relevance; sorts by relevance
descending (stable) and truncates to `max_results`. -/
def search (st : DMState) (query : String) (semestre_f : Option Int)
    (materia_f dificultad tipo_reto_f : Option String) (max_results : ℕ)
    (minSim : ℚ) : List SResult × DMState :=
  if query = "" ∨ (pyStrip query).data.length < 2 then ([], st)
  else
    let q := pyStrip (pyLower query)
    let (rs, st1) :=
      searchSems minSim q semestre_f materia_f dificultad tipo_reto_f (get_semestres st) st
    ((sortDesc rs).take max_results, st1)

/-! ### Specification-side reference definitions -/

/-- Reference relevance score, written from the specification text: the
sum of six independent contributions — 10 for a query substring of the
lowercased topic name, 2 more when the name starts with the query, 8 for
a substring of the topic id, 5 for a substring of the subject name, the
name similarity times 7 when at least the threshold, the id similarity
times 5 when at least the threshold, and 3 per query word of length at
least 3 that some topic-name word contains or is contained in (counted at
most once per query word). -/
def relevanciaSpec (minSim : ℚ) (query : String) (tema : TemaInfo)
    (materia_nombre : String) : ℚ :=
  let nombre := pyLower tema.nombre
  let tid := pyLower tema.id
  let mat := pyLower materia_nombre
  (if pyIn query nombre then (10 : ℚ) else 0) +
  (if pyStarts nombre query then (2 : ℚ) else 0) +
  (if pyIn query tid then (8 : ℚ) else 0) +
  (if pyIn query mat then (5 : ℚ) else 0) +
  (if similarity query nombre ≥ minSim then similarity query nombre * 7 else 0) +
  (if similarity query tid ≥ minSim then similarity query tid * 5 else 0) +
  ((splitChars query.data).map fun qw =>
      if 3 ≤ qw.length ∧
          (splitChars nombre.data).any (fun tw => subChars qw tw || subChars tw qw) then
        (3 : ℚ)
      else 0).sum

/-! ### Concrete instances used by counterexamples and witnesses -/

/-- A DataManager state with the given file system, semesters and
readiness flag, and empty caches and counters. -/
def mkState (fs : FS) (sems : List Semester) (ini : Bool) : DMState where
  fs := fs
  semestres := sems
  topics := []
  challenges := []
  projects := []
  metadataC := []
  cache_hits := 0
  cache_misses := 0
  topics_loaded := 0
  challenges_loaded := 0
  projects_loaded := 0
  inicializado := ini
  nextId := 0
  storeLoads := 0

/-- A load key: (semester number, subject id, topic file). -/
abbrev TKey := Int × String × String

/-- The cache key generated for a load key. -/
def tkey (k : TKey) : String :=
  generarCacheKey k.1 k.2.1 k.2.2

/-- Run a sequence of plain `get_topic` calls (no force_reload),
discarding the returned topics and threading the state. -/
def runGets (s : DMState) : List TKey → DMState
  | [] => s
  | k :: ks => runGets (get_topic s k.1 k.2.1 k.2.2 false).2 ks

/-- A complete, well-formed topic document (programming variant). -/
def docOK : TopicDoc :=
  [("metadata", [("titulo", .str "Tema OK"), ("dificultad", .str "basico")]),
   ("1_conceptos_clave", [("contenido", .str "c")]),
   ("2_utilidad_practica", [("contenido", .str "u")]),
   ("3_relaciones", [("prerequisitos", .list [])]),
   ("4_aplicaciones_industria", [("sectores", .list [])]),
   ("5_roles_laborales", [("roles", .list [])]),
   ("6_reto_proyecto", [("tipo", .str "programacion"), ("titulo", .str "Reto")])]

/-- The Topic that `Topic.__init__` produces from `docOK`. -/
def topicOK : Topic :=
  { metadata := [("titulo", .str "Tema OK"), ("dificultad", .str "basico")]
    conceptos_clave := [("contenido", .str "c")]
    utilidad_practica := [("contenido", .str "u")]
    relaciones := [("prerequisitos", .list [])]
    aplicaciones_industria := [("sectores", .list [])]
    roles_laborales := [("roles", .list [])]
    reto_proyecto := [("tipo", .str "programacion"), ("titulo", .str "Reto")] }

/-- A file system holding `docOK` at semestre_1/m/t.json. -/
def fsOK : FS := fun p =>
  if p = "semestre_1/m/t.json" then some (.doc docOK) else none

/-- Document whose sixth section carries an unrecognized type tag. -/
def docTag : TopicDoc :=
  [("metadata", [("titulo", .str "Tema Tag")]),
   ("1_conceptos_clave", [("contenido", .str "c")]),
   ("2_utilidad_practica", [("contenido", .str "u")]),
   ("3_relaciones", [("prerequisitos", .list [])]),
   ("4_aplicaciones_industria", [("sectores", .list [])]),
   ("5_roles_laborales", [("roles", .list [])]),
   ("6_reto_proyecto", [("tipo", .str "experimento"), ("titulo", .str "X")])]

/-- The Topic loaded from `docTag`. -/
def topicTag : Topic :=
  { metadata := [("titulo", .str "Tema Tag")]
    conceptos_clave := [("contenido", .str "c")]
    utilidad_practica := [("contenido", .str "u")]
    relaciones := [("prerequisitos", .list [])]
    aplicaciones_industria := [("sectores", .list [])]
    roles_laborales := [("roles", .list [])]
    reto_proyecto := [("tipo", .str "experimento"), ("titulo", .str "X")] }

/-- A file system holding `docTag`. -/
def fsTag : FS := fun p =>
  if p = "semestre_1/m/t.json" then some (.doc docTag) else none

/-- Document with an empty first section and an empty metadata title. -/
def docEmptySec : TopicDoc :=
  [("metadata", [("titulo", .str "")]),
   ("1_conceptos_clave", []),
   ("2_utilidad_practica", [("contenido", .str "u")]),
   ("3_relaciones", [("prerequisitos", .list [])]),
   ("4_aplicaciones_industria", [("sectores", .list [])]),
   ("5_roles_laborales", [("roles", .list [])]),
   ("6_reto_proyecto", [("tipo", .str "conceptual"), ("titulo", .str "P"),
                        ("descripcion", .str "d")])]

/-- The Topic constructed from `docEmptySec`. -/
def topicEmptySec : Topic :=
  { metadata := [("titulo", .str "")]
    conceptos_clave := []
    utilidad_practica := [("contenido", .str "u")]
    relaciones := [("prerequisitos", .list [])]
    aplicaciones_industria := [("sectores", .list [])]
    roles_laborales := [("roles", .list [])]
    reto_proyecto := [("tipo", .str "conceptual"), ("titulo", .str "P"),
                      ("descripcion", .str "d")] }

/-- Document with a conceptual sixth section lacking its required
`titulo` and `descripcion` fields. -/
def docConcBare : TopicDoc :=
  [("metadata", [("titulo", .str "Tema Conc")]),
   ("1_conceptos_clave", [("contenido", .str "c")]),
   ("2_utilidad_practica", [("contenido", .str "u")]),
   ("3_relaciones", [("prerequisitos", .list [])]),
   ("4_aplicaciones_industria", [("sectores", .list [])]),
   ("5_roles_laborales", [("roles", .list [])]),
   ("6_reto_proyecto", [("tipo", .str "conceptual")])]

/-- The Topic loaded from `docConcBare`. -/
def topicConcBare : Topic :=
  { metadata := [("titulo", .str "Tema Conc")]
    conceptos_clave := [("contenido", .str "c")]
    utilidad_practica := [("contenido", .str "u")]
    relaciones := [("prerequisitos", .list [])]
    aplicaciones_industria := [("sectores", .list [])]
    roles_laborales := [("roles", .list [])]
    reto_proyecto := [("tipo", .str "conceptual")] }

/-- A file system holding `docConcBare`. -/
def fsConcBare : FS := fun p =>
  if p = "semestre_1/m/t.json" then some (.doc docConcBare) else none

/-- Document whose sixth section lacks the type tag entirely. -/
def docNoTipo : TopicDoc :=
  [("metadata", [("titulo", .str "Tema SinTipo")]),
   ("1_conceptos_clave", [("contenido", .str "c")]),
   ("2_utilidad_practica", [("contenido", .str "u")]),
   ("3_relaciones", [("prerequisitos", .list [])]),
   ("4_aplicaciones_industria", [("sectores", .list [])]),
   ("5_roles_laborales", [("roles", .list [])]),
   ("6_reto_proyecto", [("titulo", .str "P"), ("descripcion", .str "d")])]

/-- The Topic loaded from `docNoTipo`. -/
def topicNoTipo : Topic :=
  { metadata := [("titulo", .str "Tema SinTipo")]
    conceptos_clave := [("contenido", .str "c")]
    utilidad_practica := [("contenido", .str "u")]
    relaciones := [("prerequisitos", .list [])]
    aplicaciones_industria := [("sectores", .list [])]
    roles_laborales := [("roles", .list [])]
    reto_proyecto := [("titulo", .str "P"), ("descripcion", .str "d")] }

/-- A file system holding `docNoTipo`. -/
def fsNoTipo : FS := fun p =>
  if p = "semestre_1/m/t.json" then some (.doc docNoTipo) else none

/-- Curriculum subject record that parses successfully. -/
def matDocOK : MatDoc :=
  { id := some "m1", nombre := some "Materia Uno", creditos := some 5,
    temas := [{ id := some "t1", nombre := some "Tema Uno", archivo := some "t1.json" }] }

/-- Curriculum semester record that parses successfully. -/
def semDocOK : SemDoc :=
  { numero := some 1, nombre := some "Primer Semestre", materias := [matDocOK] }

/-- Curriculum semester record missing its required `nombre` field. -/
def semDocBad : SemDoc :=
  { numero := some 2, nombre := none, materias := [] }

/-- Curriculum document whose second semester record is invalid. -/
def curDocBad : CurDoc :=
  { semestres := some [semDocOK, semDocBad] }

/-- The Semester parsed from `semDocOK`. -/
def semOK : Semester :=
  { numero := 1, nombre := "Primer Semestre",
    materias := [{ id := "m1", nombre := "Materia Uno", creditos := 5,
                   temas := [{ id := "t1", nombre := "Tema Uno", archivo := "t1.json" }] }] }

/-- Topic stub "Teoría de Conjuntos" of the search-ranking example. -/
def temaConj : TemaInfo :=
  { id := "teoria_conjuntos", nombre := "Teoría de Conjuntos",
    archivo := "teoria_conjuntos.json" }

/-- Topic stub "Álgebra Booleana" of the search-ranking example. -/
def temaBool : TemaInfo :=
  { id := "algebra_booleana", nombre := "Álgebra Booleana",
    archivo := "algebra_booleana.json" }

/-- Subject "Álgebra Superior" holding the two example topics. -/
def matAlgebra : Subject :=
  { id := "algebra_superior", nombre := "Álgebra Superior", creditos := 8,
    temas := [temaConj, temaBool] }

/-- The semester of the search-ranking example. -/
def semAlgebra : Semester :=
  { numero := 1, nombre := "Primer Semestre", materias := [matAlgebra] }

/-- An empty content file system. -/
def emptyFS : FS := fun _ => none

/-- Ready DataManager state over the search-ranking example corpus. -/
def stAlgebra : DMState := mkState emptyFS [semAlgebra] true

/-- The single record returned by `search("algebra")` on `stAlgebra`:
a topic-id substring hit (+8) plus the fuzzy id similarity 14/23 times 5,
totalling 254/23. -/
def resBool : SResult where
  relevancia := 254/23
  semestre := 1
  semestre_nombre := "Primer Semestre"
  materia_id := "algebra_superior"
  materia_nombre := "Álgebra Superior"
  tema_id := "algebra_booleana"
  tema_nombre := "Álgebra Booleana"
  archivo := "algebra_booleana.json"
  dificultad := PyVal.str "desconocida"
  tipo_reto := none

/-- The Challenge built from the sixth section of `docOK`. -/
def chalOK : Challenge :=
  { tipo := .str "programacion", titulo := .str "Reto", descripcion := .str ""
    dificultad := .str "intermedio", codigo_inicial := .str "", solucion := .str ""
    pistas := .list [], casos_prueba_visibles := [], casos_prueba_ocultos := []
    recursos_adicionales := .list [], lenguaje := .str "python"
    tiempo_estimado := .str "30-45 minutos" }

/-- The state after a first successful `get_topic(1, "m", "t.json")` on a
fresh Ready DataManager over `fsOK`. -/
def stAfterFirst : DMState :=
  { mkState fsOK [] true with
    cache_misses := 1
    storeLoads := 1
    topics := [(generarCacheKey 1 "m" "t.json", ⟨topicOK, 0⟩)]
    topics_loaded := 1
    nextId := 1 }

/-! ## Theorems -/

theorem foldl_best_mem (l : List (Nat × Nat × Nat)) (init : Nat × Nat × Nat) :
    l.foldl (fun best c => if c.2.2 > best.2.2 then c else best) init = init ∨
      l.foldl (fun best c => if c.2.2 > best.2.2 then c else best) init ∈ l := by
  induction l generalizing init with
  | nil => exact Or.inl rfl
  | cons x xs ih =>
    simp only [List.foldl_cons]
    rcases ih (if x.2.2 > init.2.2 then x else init) with h | h
    · rw [h]
      by_cases hc : x.2.2 > init.2.2
      · simp [hc]
      · simp [hc]
    · exact Or.inr (List.mem_cons_of_mem _ h)

theorem comPre_ne_zero {x y : List Char} (h : comPre x y ≠ 0) :
    x ≠ [] ∧ y ≠ [] := by
  cases x with
  | nil => simp [comPre] at h
  | cons a as =>
    cases y with
    | nil => simp [comPre] at h
    | cons b bs => exact ⟨by simp, by simp⟩

theorem bestMatch_bounds {a b : List Char} {i j k : Nat}
    (h : bestMatch a b = (i, j, k)) (hk : k ≠ 0) :
    i < a.length ∧ j < b.length := by
  rcases foldl_best_mem (allMatches a b) (0, 0, 0) with hfold | hfold
  · rw [bestMatch] at h
    rw [hfold] at h
    cases h
    exact absurd rfl hk
  · rw [bestMatch] at h
    rw [h] at hfold
    simp only [allMatches, List.mem_flatMap, List.mem_map, List.mem_range] at hfold
    obtain ⟨i2, hi2, j2, hj2, heq⟩ := hfold
    simp only [Prod.mk.injEq] at heq
    obtain ⟨h1, h2, h3⟩ := heq
    subst h1
    subst h2
    subst h3
    have hne := comPre_ne_zero hk
    constructor
    · by_contra hlt
      exact hne.1 (List.drop_eq_nil_of_le (by omega))
    · by_contra hlt
      exact hne.2 (List.drop_eq_nil_of_le (by omega))


/-- Lookup after overwriting assignment at the same key. -/
theorem aget_aset_self {α : Type} (m : List (String × α)) (k : String) (v : α) :
    aget (aset m k v) k = some v := by
  induction m with
  | nil => simp [aset, aget, List.find?]
  | cons p rest ih =>
    by_cases h : p.1 = k
    · simp [aset, h, aget, List.find?]
    · simp only [aset]
      rw [if_neg h]
      simpa [aget, List.find?, h] using ih

/-- Lookup after overwriting assignment at a different key. -/
theorem aget_aset_ne {α : Type} (m : List (String × α)) (k k2 : String) (v : α)
    (h : k2 ≠ k) : aget (aset m k v) k2 = aget m k2 := by
  have h2 : k ≠ k2 := fun hh => h hh.symm
  induction m with
  | nil => simp [aset, aget, List.find?, h2]
  | cons p rest ih =>
    by_cases hp : p.1 = k
    · have hpk2 : ¬ (p.1 = k2) := by
        rw [hp]
        exact h2
      simp only [aset]
      rw [if_pos hp]
      simp [aget, List.find?, h2, hpk2]
    · simp only [aset]
      rw [if_neg hp]
      by_cases hp2 : p.1 = k2
      · simp [aget, List.find?, hp2]
      · simpa [aget, List.find?, hp2] using ih

/-- Assignment can only grow the set of present keys. -/
theorem aget_aset_isSome {α : Type} (m : List (String × α)) (k k2 : String) (v : α)
    (h : (aget m k2).isSome = true) : (aget (aset m k v) k2).isSome = true := by
  by_cases hk : k2 = k
  · subst hk
    rw [aget_aset_self]
    rfl
  · rw [aget_aset_ne m k k2 v hk]
    exact h

/-- A startswith hit is in particular a substring hit. -/
theorem strStarts_sub {q h : List Char} (hs : strStarts q h = true) :
    subChars q h = true := by
  cases h with
  | nil => simpa [subChars] using hs
  | cons c cs => simp [subChars, hs]

/-- C3 counterexample input: a not-Ready DataManager over a file system
holding one valid document. -/
def stNotReady : DMState := mkState fsOK [] false

/-- C3, counterexample. The claim includes `get_metadatos_tema` among the
readiness-guarded operations that return an empty or absent value before
`Ready`; but `DataManager.get_metadatos_tema` performs no readiness check
and here returns a non-empty metadata dictionary while
`inicializado = false`. -/
theorem C3_counterexample :
    stNotReady.inicializado = false ∧
    (get_metadatos_tema stNotReady 1 "m" "t.json").1 =
      some [("titulo", PyVal.str "Tema OK"), ("dificultad", PyVal.str "basico")] := by
  constructor
  · rfl
  · with_unfolding_all rfl

/-- C3, amended: every listed read operation except `get_metadatos_tema`
(get_semestres, get_semestre, get_materia, get_topic, get_challenge,
get_project, buscar_materias, buscar_temas) returns an empty or absent
value when the DataManager is not Ready; `get_metadatos_tema` performs no
readiness check and may return non-empty metadata (it still never raises:
all its failure paths return `None`). -/
theorem C3_amended (s : DMState) (n num : Int) (m a q : String) (force : Bool)
    (h : s.inicializado = false) :
    get_semestres s = [] ∧ get_semestre s num = none ∧
    get_materia s n m = none ∧
    (get_topic s n m a force).1 = none ∧
    (get_challenge s n m a force).1 = none ∧
    (get_project s n m a force).1 = none ∧
    buscar_materias s q = [] ∧ buscar_temas s q = [] := by
  refine ⟨?_, ?_, ?_, ?_, ?_, ?_, ?_, ?_⟩ <;>
    simp [get_semestres, get_semestre, get_materia, get_topic, get_challenge,
      get_project, buscar_materias, buscar_temas, h]

/-- Witness for C3_amended at a concrete not-Ready state. -/
theorem C3_amended_witness :
    stNotReady.inicializado = false ∧
    (get_topic stNotReady 1 "m" "t.json" false).1 = none :=
  ⟨rfl, (C3_amended stNotReady 1 2 "m" "t.json" "q" false rfl).2.2.2.1⟩

/-- C10. A topic document whose sixth section lacks the `tipo` tag is
classified conceptual by default; `load_challenge` returns absent,
`load_project` raises `ValueError` (Project construction rejects any
section whose tag is not literally `conceptual`), and the Coordinator
`get_project` consequently returns absent for the key. -/
theorem C10_missing_tag_defaults_conceptual (fs : FS) (n : Int) (m a : String) (t : Topic)
    (hload : load_topic fs n m a = .ok t)
    (htipo : dget t.reto_proyecto "tipo" = none) :
    t.es_proyecto_conceptual = true ∧ t.es_reto_programacion = false ∧
    load_challenge fs n m a = .ok none ∧
    (∃ msg, load_project fs n m a = .error (.valueErr msg)) ∧
    (∀ s : DMState, s.fs = fs → s.inicializado = true →
       aget s.projects (generarCacheKey n m a) = none →
       (get_project s n m a false).1 = none) := by
  have htr : t.tipo_reto = .str "conceptual" := by
    simp [Topic.tipo_reto, dgetD, htipo]
  have hconc : t.es_proyecto_conceptual = true := by
    simp [Topic.es_proyecto_conceptual, htr, pyEqStr]
  have hprog : t.es_reto_programacion = false := by
    simp [Topic.es_reto_programacion, htr, pyEqStr]
  have hchal : load_challenge fs n m a = .ok none := by
    simp [load_challenge, hload, hprog, Bind.bind, Except.bind, pure, Except.pure]
  have hproj : load_project fs n m a = .error (.valueErr "tipo debe ser conceptual") := by
    simp [load_project, hload, hconc, Bind.bind, Except.bind, Project.init, htipo, throw,
      throwThe, MonadExceptOf.throw, pure, Except.pure]
  refine ⟨hconc, hprog, hchal, ⟨_, hproj⟩, ?_⟩
  intro s hfs hinit hcache
  simp [get_project, hinit, hcache, hfs, hproj]

/-- Witness for C10 at the concrete document `docNoTipo`. -/
theorem C10_witness :
    load_topic fsNoTipo 1 "m" "t.json" = .ok topicNoTipo ∧
    dget topicNoTipo.reto_proyecto "tipo" = none ∧
    (get_project (mkState fsNoTipo [] true) 1 "m" "t.json" false).1 = none := by
  have h1 : load_topic fsNoTipo 1 "m" "t.json" = .ok topicNoTipo := by
    with_unfolding_all rfl
  have h2 : dget topicNoTipo.reto_proyecto "tipo" = none := by
    with_unfolding_all rfl
  exact ⟨h1, h2,
    (C10_missing_tag_defaults_conceptual fsNoTipo 1 "m" "t.json" topicNoTipo h1 h2).2.2.2.2
      (mkState fsNoTipo [] true) rfl rfl rfl⟩

/-- C4, counterexample. The claim says `load_topic` fails with
`InvalidVariant` when the sixth section carries an unrecognized type tag;
but the source performs no variant validation in `load_topic`: this
document with tag "experimento" loads successfully. -/
theorem C4_counterexample :
    dget topicTag.reto_proyecto "tipo" = some (.str "experimento") ∧
    load_topic fsTag 1 "m" "t.json" = .ok topicTag := by
  constructor
  · with_unfolding_all rfl
  · with_unfolding_all rfl

/-- C4, amended: `load_topic` fails with `FileNotFoundError` when the
file is absent, with `JSONDecodeError` when parsing fails, with
`KeyError` when any of the seven required top-level keys (metadata plus
the six sections) is absent — never yielding a partially populated Topic;
when all are present it fails with `ValueError` if metadata is empty or
lacks the `titulo` key, and otherwise succeeds with the full Topic
regardless of the sixth section type tag (no `InvalidVariant` check is
performed; variant errors surface only in load_challenge/load_project). -/
theorem C4_amended (fs : FS) (n : Int) (m a : String) :
    (fs (construirRuta n m a) = none →
       load_topic fs n m a = .error .fileNotFound) ∧
    (fs (construirRuta n m a) = some .malformed →
       load_topic fs n m a = .error .jsonDecodeErr) ∧
    (∀ d, fs (construirRuta n m a) = some (.doc d) →
       ((∃ sec ∈ requiredSections, docGet d sec = none) →
          ∃ sec2 ∈ requiredSections, docGet d sec2 = none ∧
            load_topic fs n m a = .error (.keyErr sec2)) ∧
       ((∀ sec ∈ requiredSections, (docGet d sec).isSome = true) →
          (¬ (dtruthy ((docGet d "metadata").getD []) = true ∧
              dmem ((docGet d "metadata").getD []) "titulo" = true) →
             ∃ msg, load_topic fs n m a = .error (.valueErr msg)) ∧
          (dtruthy ((docGet d "metadata").getD []) = true →
           dmem ((docGet d "metadata").getD []) "titulo" = true →
             load_topic fs n m a = .ok
               { metadata := (docGet d "metadata").getD []
                 conceptos_clave := (docGet d "1_conceptos_clave").getD []
                 utilidad_practica := (docGet d "2_utilidad_practica").getD []
                 relaciones := (docGet d "3_relaciones").getD []
                 aplicaciones_industria := (docGet d "4_aplicaciones_industria").getD []
                 roles_laborales := (docGet d "5_roles_laborales").getD []
                 reto_proyecto := (docGet d "6_reto_proyecto").getD [] }))) := by
  refine ⟨?_, ?_, ?_⟩
  · intro h
    simp [load_topic, h]
  · intro h
    simp [load_topic, h]
  · intro d hd
    constructor
    · intro hmiss
      have hfind : (requiredSections.find? (fun sec => (docGet d sec).isNone)).isSome := by
        rw [List.find?_isSome]
        obtain ⟨sec, hmem, hnone⟩ := hmiss
        exact ⟨sec, hmem, by simp [hnone]⟩
      obtain ⟨sec2, hf⟩ := Option.isSome_iff_exists.mp hfind
      refine ⟨sec2, List.mem_of_find?_eq_some hf, ?_, ?_⟩
      · have := List.find?_some hf
        simpa [Option.isNone_iff_eq_none] using this
      · simp [load_topic, hd, Topic.init, hf]
    · intro hall
      have hfind : requiredSections.find? (fun sec => (docGet d sec).isNone) = none := by
        rw [List.find?_eq_none]
        intro x hx
        simp [Option.isNone_iff_eq_none]
        exact Option.isSome_iff_ne_none.mp (hall x hx)
      constructor
      · intro hbad
        by_cases h1 : dtruthy ((docGet d "metadata").getD []) = true
        · have h2 : ¬ dmem ((docGet d "metadata").getD []) "titulo" = true := by
            intro h2
            exact hbad ⟨h1, h2⟩
          refine ⟨"sin titulo", ?_⟩
          simp [load_topic, hd, Topic.init, hfind, h1, h2]
        · refine ⟨"metadata vacio", ?_⟩
          simp [load_topic, hd, Topic.init, hfind, h1]
      · intro h1 h2
        simp [load_topic, hd, Topic.init, hfind, h1, h2]

/-- Witness for C4_amended: the success branch at the complete document
`docOK`. -/
theorem C4_amended_witness :
    fsOK "semestre_1/m/t.json" = some (.doc docOK) ∧
    load_topic fsOK 1 "m" "t.json" = .ok topicOK := by
  refine ⟨rfl, ?_⟩
  have h := ((C4_amended fsOK 1 "m" "t.json").2.2 docOK rfl).2
  exact (h (by with_unfolding_all decide) ).2 (by with_unfolding_all rfl)
    (by with_unfolding_all rfl)

/-- C9, counterexample. The claim says no Topic with an empty section or
an empty metadata title can be constructed; `Topic.__init__` only checks
that the section keys are present (not that their values are non-empty)
and that the `titulo` key exists (not that it is non-empty), so this
document with an empty first section and an empty title constructs
fine. -/
theorem C9_counterexample :
    Topic.init docEmptySec = .ok topicEmptySec ∧
    topicEmptySec.conceptos_clave = [] ∧
    topicEmptySec.titulo = .str "" ∧
    topicEmptySec.tiene_contenido_completo = false := by
  refine ⟨?_, rfl, ?_, ?_⟩
  · with_unfolding_all rfl
  · with_unfolding_all rfl
  · with_unfolding_all rfl

/-- C9, amended: a Topic is successfully constructed iff the seven
required keys are present, metadata is non-empty, and metadata contains
the key `titulo`; sections themselves may be empty and the title value
may be the empty string (non-emptiness is only reported, post hoc, by
`tiene_contenido_completo`, which construction does not enforce). -/
theorem C9_amended (d : TopicDoc) :
    (∃ t, Topic.init d = .ok t) ↔
      ((∀ sec ∈ requiredSections, (docGet d sec).isSome = true) ∧
       dtruthy ((docGet d "metadata").getD []) = true ∧
       dmem ((docGet d "metadata").getD []) "titulo" = true) := by
  constructor
  · rintro ⟨t, ht⟩
    match hf : requiredSections.find? (fun sec => (docGet d sec).isNone) with
    | some sec =>
      rw [Topic.init, hf] at ht
      cases ht
    | none =>
      have hall : ∀ sec ∈ requiredSections, (docGet d sec).isSome = true := by
        intro x hx
        have := List.find?_eq_none.mp hf x hx
        simpa [Option.isNone_iff_eq_none, Option.isSome_iff_ne_none] using this
      rw [Topic.init, hf] at ht
      by_cases h1 : dtruthy ((docGet d "metadata").getD []) = true
      · by_cases h2 : dmem ((docGet d "metadata").getD []) "titulo" = true
        · exact ⟨hall, h1, h2⟩
        · rw [if_neg (by simpa using h1), if_pos (by simpa using h2)] at ht
          cases ht
      · rw [if_pos (by simpa using h1)] at ht
        cases ht
  · rintro ⟨hall, h1, h2⟩
    have hfind : requiredSections.find? (fun sec => (docGet d sec).isNone) = none := by
      rw [List.find?_eq_none]
      intro x hx
      simp [Option.isNone_iff_eq_none]
      exact Option.isSome_iff_ne_none.mp (hall x hx)
    refine ⟨{ metadata := (docGet d "metadata").getD []
              conceptos_clave := (docGet d "1_conceptos_clave").getD []
              utilidad_practica := (docGet d "2_utilidad_practica").getD []
              relaciones := (docGet d "3_relaciones").getD []
              aplicaciones_industria := (docGet d "4_aplicaciones_industria").getD []
              roles_laborales := (docGet d "5_roles_laborales").getD []
              reto_proyecto := (docGet d "6_reto_proyecto").getD [] }, ?_⟩
    rw [Topic.init, hfind]
    rw [if_neg (by simpa using h1), if_neg (by simpa using h2)]

/-- Witness for C9_amended at the concrete document `docOK`. -/
theorem C9_amended_witness :
    ((∀ sec ∈ requiredSections, (docGet docOK sec).isSome = true) ∧
     dtruthy ((docGet docOK "metadata").getD []) = true ∧
     dmem ((docGet docOK "metadata").getD []) "titulo" = true) ∧
    ∃ t, Topic.init docOK = .ok t := by
  have h : (∀ sec ∈ requiredSections, (docGet docOK sec).isSome = true) ∧
      dtruthy ((docGet docOK "metadata").getD []) = true ∧
      dmem ((docGet docOK "metadata").getD []) "titulo" = true := by
    refine ⟨by with_unfolding_all decide, by with_unfolding_all rfl, by with_unfolding_all rfl⟩
  exact ⟨h, (C9_amended docOK).mpr h⟩

/-- Values equal to a string literal under Python equality are that
string. -/
theorem pyEqStr_eq {v : PyVal} {s : String} (h : pyEqStr v s = true) : v = .str s := by
  cases v <;> simp [pyEqStr] at h <;> simp [h]

/-- C8, counterexample. The claim says a document whose sixth section is
tagged `conceptual` yields a non-absent Project from `load_project`; but
when the section lacks the required `titulo`/`descripcion` fields,
`Project.__init__` raises `ValueError` and `load_project` re-raises it
instead of returning a Project. -/
theorem C8_counterexample :
    load_topic fsConcBare 1 "m" "t.json" = .ok topicConcBare ∧
    topicConcBare.es_proyecto_conceptual = true ∧
    load_project fsConcBare 1 "m" "t.json" = .error (.valueErr "falta titulo") := by
  refine ⟨?_, ?_, ?_⟩
  · with_unfolding_all rfl
  · with_unfolding_all rfl
  · with_unfolding_all rfl

/-- C8, amended: for a document `load_topic` accepts — if the tag is
`programacion`, `load_project` returns absent and `load_challenge`
returns a non-absent Challenge whenever Challenge construction succeeds
(it reads every field with a default, failing only on malformed
test-case lists); if the tag is `conceptual`, `load_challenge` returns
absent and `load_project` returns a non-absent Project exactly when
Project construction succeeds (it requires `titulo` and `descripcion`),
re-raising its ValueError otherwise; the two loaders are never both
non-absent. -/
theorem C8_amended (fs : FS) (n : Int) (m a : String) (t : Topic)
    (hload : load_topic fs n m a = .ok t) :
    (t.es_reto_programacion = true →
       load_project fs n m a = .ok none ∧
       (∀ c, Challenge.init t.reto_proyecto = .ok c →
          load_challenge fs n m a = .ok (some c))) ∧
    (t.es_proyecto_conceptual = true →
       load_challenge fs n m a = .ok none ∧
       (∀ p, Project.init t.reto_proyecto = .ok p →
          load_project fs n m a = .ok (some p)) ∧
       (∀ e, Project.init t.reto_proyecto = .error e →
          load_project fs n m a = .error e)) ∧
    (∀ c p, ¬ (load_challenge fs n m a = .ok (some c) ∧
               load_project fs n m a = .ok (some p))) := by
  refine ⟨?_, ?_, ?_⟩
  · intro hprog
    have hconc : t.es_proyecto_conceptual = false := by
      have := pyEqStr_eq hprog
      simp [Topic.es_proyecto_conceptual, this, pyEqStr]
    constructor
    · simp [load_project, hload, hconc, Bind.bind, Except.bind, pure, Except.pure]
    · intro c hc
      simp [load_challenge, hload, hprog, Bind.bind, Except.bind, pure, Except.pure, hc]
  · intro hconc
    have hprog : t.es_reto_programacion = false := by
      have := pyEqStr_eq hconc
      simp [Topic.es_reto_programacion, this, pyEqStr]
    refine ⟨?_, ?_, ?_⟩
    · simp [load_challenge, hload, hprog, Bind.bind, Except.bind, pure, Except.pure]
    · intro pp hp
      simp [load_project, hload, hconc, Bind.bind, Except.bind, pure, Except.pure, hp]
    · intro e he
      simp [load_project, hload, hconc, Bind.bind, Except.bind, pure, Except.pure, he]
  · rintro c pp ⟨hc, hp⟩
    have hprog : t.es_reto_programacion = true := by
      by_cases hb : t.es_reto_programacion
      · exact hb
      · rw [load_challenge, hload] at hc
        simp [Bind.bind, Except.bind, hb, pure, Except.pure] at hc
    have hconc : t.es_proyecto_conceptual = true := by
      by_cases hb : t.es_proyecto_conceptual
      · exact hb
      · rw [load_project, hload] at hp
        simp [Bind.bind, Except.bind, hb, pure, Except.pure] at hp
    have h1 := pyEqStr_eq hprog
    have h2 := pyEqStr_eq hconc
    rw [h1] at h2
    simp at h2

/-- Witness for C8_amended: the programming document `docOK`, whose
Challenge constructs successfully. -/
theorem C8_amended_witness :
    load_topic fsOK 1 "m" "t.json" = .ok topicOK ∧
    topicOK.es_reto_programacion = true ∧
    Challenge.init topicOK.reto_proyecto = .ok chalOK ∧
    load_challenge fsOK 1 "m" "t.json" = .ok (some chalOK) := by
  have h1 : load_topic fsOK 1 "m" "t.json" = .ok topicOK := by
    with_unfolding_all rfl
  have h2 : topicOK.es_reto_programacion = true := by
    with_unfolding_all rfl
  have h3 : Challenge.init topicOK.reto_proyecto = .ok chalOK := by
    with_unfolding_all rfl
  exact ⟨h1, h2, h3,
    ((C8_amended fsOK 1 "m" "t.json" topicOK h1).1 h2).2 chalOK h3⟩

/-- C5, counterexample. The claim says a failed curriculum load commits
no partial state, `get_semestres` afterwards returning its pre-load
value; starting from a fresh loader (`get_semestres = []`), loading a
document whose second semester record lacks `nombre` returns failure but
leaves the first, successfully parsed semester committed. -/
theorem C5_counterexample :
    CLget_semestres ⟨[]⟩ = [] ∧
    CLload ⟨[]⟩ (.doc curDocBad) = (.retFalse, ⟨[semOK]⟩) ∧
    ([semOK] : List Semester) ≠ [] := by
  refine ⟨rfl, ?_, by simp⟩
  with_unfolding_all rfl

/-- C5, amended: when some semester or subject record of a (non-empty)
curriculum document is invalid, `load` aborts reporting failure, but
`_parse_semestres` has already reset the semester list and appended every
semester parsed before the failing record: afterwards `get_semestres`
returns that prefix, not the value it returned before the load attempt.
On full success the whole parsed list is committed. -/
theorem C5_amended (s : CLState) (sems : List SemDoc) (hne : sems ≠ [])
    (acc : List Semester) :
    (∀ e, parseSemestres sems [] = (acc, some e) →
       CLload s (.doc ⟨some sems⟩) = (.retFalse, ⟨acc⟩)) ∧
    (parseSemestres sems [] = (acc, none) →
       CLload s (.doc ⟨some sems⟩) = (.retTrue, ⟨acc⟩)) := by
  have hval : validarEstructura ⟨some sems⟩ = true := by
    cases sems with
    | nil => exact absurd rfl hne
    | cons x xs => rfl
  constructor
  · intro e he
    simp [CLload, hval, he]
  · intro he
    simp [CLload, hval, he]

/-- Witness for C5_amended at the concrete document `curDocBad`. -/
theorem C5_amended_witness :
    parseSemestres [semDocOK, semDocBad] [] = ([semOK], some (.keyError "nombre")) ∧
    CLload ⟨[]⟩ (.doc ⟨some [semDocOK, semDocBad]⟩) = (.retFalse, ⟨[semOK]⟩) := by
  have hp : parseSemestres [semDocOK, semDocBad] [] =
      ([semOK], some (.keyError "nombre")) := by
    with_unfolding_all rfl
  exact ⟨hp,
    (C5_amended ⟨[]⟩ [semDocOK, semDocBad] (by simp) [semOK]).1 (.keyError "nombre") hp⟩

/-- Cache hit step of get_topic: the stored instance is returned and the
only state change is the hit counter. -/
theorem get_topic_hit (s : DMState) (n : Int) (m a : String) (inst : TopicInst)
    (hinit : s.inicializado = true)
    (hkey : aget s.topics (generarCacheKey n m a) = some inst) :
    get_topic s n m a false = (some inst, { s with cache_hits := s.cache_hits + 1 }) := by
  simp [get_topic, hinit, hkey]

/-- Cache miss step of get_topic with a successful Store load: a freshly
allocated instance is returned and cached, and the miss, load and
allocation counters advance. -/
theorem get_topic_miss_ok (s : DMState) (n : Int) (m a : String) (t : Topic)
    (hinit : s.inicializado = true)
    (hkey : aget s.topics (generarCacheKey n m a) = none)
    (hload : load_topic s.fs n m a = .ok t) :
    get_topic s n m a false =
      (some ⟨t, s.nextId⟩,
       { s with cache_misses := s.cache_misses + 1, storeLoads := s.storeLoads + 1,
                topics := aset s.topics (generarCacheKey n m a) ⟨t, s.nextId⟩,
                topics_loaded := s.topics_loaded + 1, nextId := s.nextId + 1 }) := by
  simp [get_topic, hinit, hkey, hload]

/-- Forced-reload step of get_topic with a successful Store load: the
cache lookup is skipped, and the entry is overwritten by a freshly
allocated instance. -/
theorem get_topic_force_ok (s : DMState) (n : Int) (m a : String) (t : Topic)
    (hinit : s.inicializado = true)
    (hload : load_topic s.fs n m a = .ok t) :
    get_topic s n m a true =
      (some ⟨t, s.nextId⟩,
       { s with cache_misses := s.cache_misses + 1, storeLoads := s.storeLoads + 1,
                topics := aset s.topics (generarCacheKey n m a) ⟨t, s.nextId⟩,
                topics_loaded := s.topics_loaded + 1, nextId := s.nextId + 1 }) := by
  simp [get_topic, hinit, hload]

/-- Cache miss step of get_topic with a failing Store load: the
exception is caught, `None` is returned, and only the miss and
store-load counters advance (the cache is untouched). -/
theorem get_topic_miss_err (s : DMState) (n : Int) (m a : String) (e : LoadErr)
    (hinit : s.inicializado = true)
    (hkey : aget s.topics (generarCacheKey n m a) = none)
    (hload : load_topic s.fs n m a = .error e) :
    get_topic s n m a false =
      (none, { s with cache_misses := s.cache_misses + 1,
                      storeLoads := s.storeLoads + 1 }) := by
  simp [get_topic, hinit, hkey, hload]

/-- C2. For a key not yet cached whose first get_topic call succeeds:
a second call with force_reload=false returns the identical stored
instance (same allocation identity) and changes nothing but the hit
counter — in particular `storeLoads` is unchanged, so no new Store load
happens; a call with force_reload=true performs a fresh Store load
(`storeLoads` advances), overwrites the cache entry, and returns an
instance with a distinct identity whose Topic data equals the previous
one (the file system is part of the state, which models the file not
changing). -/
theorem C2_idempotence_and_force_reload (s : DMState) (n : Int) (m a : String)
    (inst : TopicInst) (s1 : DMState)
    (hinit : s.inicializado = true)
    (hkey : aget s.topics (generarCacheKey n m a) = none)
    (hfirst : get_topic s n m a false = (some inst, s1)) :
    get_topic s1 n m a false = (some inst, { s1 with cache_hits := s1.cache_hits + 1 }) ∧
    aget s1.topics (generarCacheKey n m a) = some inst ∧
    (∃ inst2 s2, get_topic s1 n m a true = (some inst2, s2) ∧
       inst2.data = inst.data ∧ inst2.iid ≠ inst.iid ∧
       aget s2.topics (generarCacheKey n m a) = some inst2 ∧
       s2.storeLoads = s1.storeLoads + 1) := by
  cases hl : load_topic s.fs n m a with
  | error e =>
    rw [get_topic_miss_err s n m a e hinit hkey hl] at hfirst
    simp at hfirst
  | ok t =>
    rw [get_topic_miss_ok s n m a t hinit hkey hl] at hfirst
    rw [Prod.mk.injEq] at hfirst
    obtain ⟨hA, hB⟩ := hfirst
    injection hA with hA2
    subst hA2
    subst hB
    have hcached : aget (aset s.topics (generarCacheKey n m a)
        (⟨t, s.nextId⟩ : TopicInst)) (generarCacheKey n m a) =
        some (⟨t, s.nextId⟩ : TopicInst) :=
      aget_aset_self s.topics (generarCacheKey n m a) ⟨t, s.nextId⟩
    refine ⟨?_, hcached, ?_⟩
    · exact get_topic_hit _ n m a _ hinit hcached
    · refine ⟨⟨t, s.nextId + 1⟩, _, get_topic_force_ok _ n m a t hinit hl, rfl, ?_, ?_, rfl⟩
      · simp
      · exact aget_aset_self _ (generarCacheKey n m a) _

/-- Witness for C2 at a fresh Ready DataManager over `fsOK`. -/
theorem C2_witness :
    (mkState fsOK [] true).inicializado = true ∧
    get_topic (mkState fsOK [] true) 1 "m" "t.json" false =
      (some ⟨topicOK, 0⟩, stAfterFirst) ∧
    get_topic stAfterFirst 1 "m" "t.json" false =
      (some ⟨topicOK, 0⟩, { stAfterFirst with cache_hits := stAfterFirst.cache_hits + 1 }) := by
  have h1 : get_topic (mkState fsOK [] true) 1 "m" "t.json" false =
      (some ⟨topicOK, 0⟩, stAfterFirst) := by
    with_unfolding_all rfl
  exact ⟨rfl, h1,
    (C2_idempotence_and_force_reload (mkState fsOK [] true) 1 "m" "t.json" ⟨topicOK, 0⟩
      stAfterFirst rfl rfl h1).1⟩

/-- Running a concatenation of key lists composes. -/
theorem runGets_append (a b : List TKey) :
    ∀ s : DMState, runGets s (a ++ b) = runGets (runGets s a) b := by
  induction a with
  | nil => intro s; rfl
  | cons k ks ih =>
    intro s
    simp only [List.cons_append, runGets]
    exact ih _

/-- First phase of the cache-accounting scenario: getting a list of
pairwise distinct, not-yet-cached keys that all load successfully counts
one miss per key, no hits, and leaves every key cached. -/
theorem runGets_fresh (ks : List TKey) :
    ∀ s : DMState, s.inicializado = true →
    (∀ k ∈ ks, ∃ t, load_topic s.fs k.1 k.2.1 k.2.2 = .ok t) →
    (ks.map tkey).Nodup →
    (∀ k ∈ ks, aget s.topics (tkey k) = none) →
    (runGets s ks).cache_hits = s.cache_hits ∧
    (runGets s ks).cache_misses = s.cache_misses + ks.length ∧
    (runGets s ks).inicializado = true ∧
    (runGets s ks).fs = s.fs ∧
    (∀ k ∈ ks, (aget (runGets s ks).topics (tkey k)).isSome = true) ∧
    (∀ key, (aget s.topics key).isSome = true →
       (aget (runGets s ks).topics key).isSome = true) := by
  induction ks with
  | nil =>
    intro s hinit _ _ _
    exact ⟨rfl, rfl, hinit, rfl, by simp, fun key h => h⟩
  | cons k ks ih =>
    intro s hinit hload hnodup hfresh
    obtain ⟨t, hl⟩ := hload k (List.mem_cons_self k ks)
    have hkey : aget s.topics (tkey k) = none := hfresh k (List.mem_cons_self k ks)
    have hstep := get_topic_miss_ok s k.1 k.2.1 k.2.2 t hinit hkey hl
    have h2init : (get_topic s k.1 k.2.1 k.2.2 false).2.inicializado = true := by
      rw [hstep]
      exact hinit
    have h2fs : (get_topic s k.1 k.2.1 k.2.2 false).2.fs = s.fs := by
      rw [hstep]
    have h2hits : (get_topic s k.1 k.2.1 k.2.2 false).2.cache_hits = s.cache_hits := by
      rw [hstep]
    have h2misses : (get_topic s k.1 k.2.1 k.2.2 false).2.cache_misses =
        s.cache_misses + 1 := by
      rw [hstep]
    have h2topics : (get_topic s k.1 k.2.1 k.2.2 false).2.topics =
        aset s.topics (tkey k) ⟨t, s.nextId⟩ := by
      rw [hstep]
      rfl
    have hknotin : tkey k ∉ ks.map tkey := by
      have := hnodup
      simp only [List.map_cons, List.nodup_cons] at this
      exact this.1
    have ihres := ih (get_topic s k.1 k.2.1 k.2.2 false).2 h2init
      (fun k2 hk2 => by
        rw [h2fs]
        exact hload k2 (List.mem_cons_of_mem _ hk2))
      (by
        simp only [List.map_cons, List.nodup_cons] at hnodup
        exact hnodup.2)
      (fun k2 hk2 => by
        have hne : tkey k2 ≠ tkey k := by
          intro he
          exact hknotin (he ▸ List.mem_map_of_mem tkey hk2)
        rw [h2topics, aget_aset_ne _ _ _ _ hne]
        exact hfresh k2 (List.mem_cons_of_mem _ hk2))
    have hrun : runGets s (k :: ks) =
        runGets (get_topic s k.1 k.2.1 k.2.2 false).2 ks := rfl
    rw [hrun]
    refine ⟨?_, ?_, ihres.2.2.1, ?_, ?_, ?_⟩
    · rw [ihres.1, h2hits]
    · rw [ihres.2.1, h2misses]
      simp only [List.length_cons]
      omega
    · rw [ihres.2.2.2.1, h2fs]
    · intro k2 hk2
      rcases List.mem_cons.mp hk2 with rfl | hk2
      · refine ihres.2.2.2.2.2 (tkey k2) ?_
        rw [h2topics, aget_aset_self]
        rfl
      · exact ihres.2.2.2.2.1 k2 hk2
    · intro key h
      refine ihres.2.2.2.2.2 key ?_
      rw [h2topics]
      exact aget_aset_isSome _ _ _ _ h

/-- Second phase: getting a list of already-cached keys counts one hit
per key and changes nothing else. -/
theorem runGets_cached (ks : List TKey) :
    ∀ s : DMState, s.inicializado = true →
    (∀ k ∈ ks, (aget s.topics (tkey k)).isSome = true) →
    runGets s ks = { s with cache_hits := s.cache_hits + ks.length } := by
  induction ks with
  | nil => intro s _ _; rfl
  | cons k ks ih =>
    intro s hinit hcached
    obtain ⟨inst, hinst⟩ :=
      Option.isSome_iff_exists.mp (hcached k (List.mem_cons_self k ks))
    have hstep := get_topic_hit s k.1 k.2.1 k.2.2 inst hinit hinst
    have h2init : (get_topic s k.1 k.2.1 k.2.2 false).2.inicializado = true := by
      rw [hstep]
      exact hinit
    have ihres := ih (get_topic s k.1 k.2.1 k.2.2 false).2 h2init
      (fun k2 hk2 => by
        rw [hstep]
        exact hcached k2 (List.mem_cons_of_mem _ hk2))
    have hrun : runGets s (k :: ks) =
        runGets (get_topic s k.1 k.2.1 k.2.2 false).2 ks := rfl
    rw [hrun, ihres, hstep]
    show ({ s with cache_hits := s.cache_hits + 1 + ks.length } : DMState) = _
    have harith : s.cache_hits + 1 + ks.length = s.cache_hits + (ks.length + 1) := by
      omega
    rw [harith]
    rfl

/-- C1. Starting from a Ready DataManager with an empty topics cache and
zeroed counters, K get_topic calls with K distinct keys that all load
successfully, followed by the same K calls again, yield
cache_hits = K, cache_misses = K and a reported hit_rate of 1/2; and in
every state with no accesses yet (hits + misses = 0), get_cache_stats
reports hit_rate = 0. -/
theorem C1_cache_accounting :
    (∀ (s : DMState) (ks : List TKey),
       s.inicializado = true → s.topics = [] →
       s.cache_hits = 0 → s.cache_misses = 0 → ks ≠ [] →
       (ks.map tkey).Nodup →
       (∀ k ∈ ks, ∃ t, load_topic s.fs k.1 k.2.1 k.2.2 = .ok t) →
       (runGets s (ks ++ ks)).cache_hits = ks.length ∧
       (runGets s (ks ++ ks)).cache_misses = ks.length ∧
       (get_cache_stats (runGets s (ks ++ ks))).hit_rate = 1/2) ∧
    (∀ s : DMState, s.cache_hits + s.cache_misses = 0 →
       (get_cache_stats s).hit_rate = 0) := by
  constructor
  · intro s ks hinit htopics hhits hmisses hne hnodup hload
    have hfreshkeys : ∀ k ∈ ks, aget s.topics (tkey k) = none := by
      intro k hk
      rw [htopics]
      rfl
    have h1 := runGets_fresh ks s hinit hload hnodup hfreshkeys
    have h2 := runGets_cached ks (runGets s ks) h1.2.2.1
      (fun k hk => h1.2.2.2.2.1 k hk)
    rw [runGets_append, h2]
    have hH : (runGets s ks).cache_hits = 0 := by rw [h1.1, hhits]
    have hM : (runGets s ks).cache_misses = ks.length := by
      rw [h1.2.1, hmisses]
      omega
    have hlen : 0 < ks.length := List.length_pos.mpr hne
    refine ⟨by simp [hH], by simp [hM], ?_⟩
    simp only [get_cache_stats, hH, hM]
    have hcond : 0 + ks.length + ks.length > 0 := by omega
    rw [if_pos hcond]
    have hq : (ks.length : ℚ) ≠ 0 := by
      exact_mod_cast Nat.pos_iff_ne_zero.mp hlen
    push_cast
    rw [div_eq_iff (by positivity)]
    ring
  · intro s h
    have h1 : s.cache_hits = 0 := by omega
    have h2 : s.cache_misses = 0 := by omega
    simp [get_cache_stats, h1, h2]

/-- Witness for C1 with K = 1 over the concrete file system `fsOK`. -/
theorem C1_witness :
    (get_cache_stats (runGets (mkState fsOK [] true)
      ([((1 : Int), "m", "t.json")] ++ [((1 : Int), "m", "t.json")]))).hit_rate = 1/2 :=
  (C1_cache_accounting.1 (mkState fsOK [] true) [((1 : Int), "m", "t.json")]
    rfl rfl rfl rfl (by simp) (by simp)
    (fun k hk => by
      simp only [List.mem_singleton] at hk
      subst hk
      exact ⟨topicOK, by with_unfolding_all rfl⟩)).2.2

/-- The inner word loop is the any-match test paying 3 at most once. -/
theorem innerWordLoop_eq_any (qw : List Char) (tws : List (List Char)) :
    innerWordLoop qw tws =
      if tws.any (fun tw => subChars qw tw || subChars tw qw) then (3 : ℚ) else 0 := by
  induction tws with
  | nil => simp [innerWordLoop]
  | cons tw rest ih =>
    by_cases h : (subChars qw tw || subChars tw qw) = true
    · simp [innerWordLoop, h]
    · simp only [innerWordLoop, h, if_false, List.any_cons]
      rw [ih]
      simp [h]

/-- The word loop is the per-query-word sum of 3-point contributions. -/
theorem wordLoop_eq_sum (tws : List (List Char)) (qws : List (List Char)) :
    wordLoop tws qws =
      (qws.map fun qw =>
        if 3 ≤ qw.length ∧
            tws.any (fun tw => subChars qw tw || subChars tw qw) then (3 : ℚ)
        else 0).sum := by
  induction qws with
  | nil => simp [wordLoop]
  | cons qw rest ih =>
    simp only [wordLoop, List.map_cons, List.sum_cons, ih]
    congr 1
    by_cases hlen : qw.length < 3
    · rw [if_pos hlen, if_neg]
      omega
    · rw [if_neg hlen, innerWordLoop_eq_any]
      by_cases hany : tws.any (fun tw => subChars qw tw || subChars tw qw) = true
      · rw [if_pos hany, if_pos ⟨by omega, hany⟩]
      · rw [if_neg hany, if_neg]
        rintro ⟨-, h2⟩
        exact hany h2

/-- The code relevance score equals the specification-side sum. -/
theorem calcularRelevancia_eq_spec (minSim : ℚ) (query : String) (tema : TemaInfo)
    (materia_nombre : String) :
    calcularRelevancia minSim query tema materia_nombre =
      relevanciaSpec minSim query tema materia_nombre := by
  unfold calcularRelevancia relevanciaSpec
  dsimp only
  rw [wordLoop_eq_sum]
  have h1 : (if pyIn query (pyLower tema.nombre) = true then
      (10 : ℚ) + (if pyStarts (pyLower tema.nombre) query = true then 2 else 0) else 0) =
      (if pyIn query (pyLower tema.nombre) = true then (10 : ℚ) else 0) +
      (if pyStarts (pyLower tema.nombre) query = true then (2 : ℚ) else 0) := by
    by_cases hin : pyIn query (pyLower tema.nombre) = true
    · simp [hin]
    · have hst : pyStarts (pyLower tema.nombre) query = false := by
        cases hc : pyStarts (pyLower tema.nombre) query
        · rfl
        · exact absurd (strStarts_sub hc) (by simpa using hin)
      simp [hin, hst]
  rw [h1]

/-- A topic record produced by the search loop body has strictly
positive relevance. -/
theorem searchTema_pos (minSim : ℚ) (q : String) (df tf : Option String)
    (sem : Semester) (mat : Subject) (tema : TemaInfo) (st : DMState) (r : SResult)
    (h : (searchTema minSim q df tf sem mat tema st).1 = some r) :
    0 < r.relevancia := by
  by_cases hrel : calcularRelevancia minSim q tema mat.nombre > 0
  · rw [searchTema] at h
    rw [if_pos hrel] at h
    dsimp only at h
    repeat' split at h
    all_goals simp only at h
    all_goals first
      | (obtain rfl := Option.some.inj h; exact hrel)
      | (obtain rfl := Option.some.inj h; simpa using hrel)
      | simp at h
  · rw [searchTema] at h
    rw [if_neg hrel] at h
    simp at h

/-- Every record collected over a subject has positive relevance. -/
theorem searchTemas_pos (minSim : ℚ) (q : String) (df tf : Option String)
    (sem : Semester) (mat : Subject) :
    ∀ (temas : List TemaInfo) (st : DMState) (r : SResult),
      r ∈ (searchTemas minSim q df tf sem mat temas st).1 → 0 < r.relevancia := by
  intro temas
  induction temas with
  | nil =>
    intro st r h
    simp [searchTemas] at h
  | cons t ts ih =>
    intro st r h
    rw [searchTemas] at h
    dsimp only at h
    split at h
    · rename_i x heq
      rcases List.mem_cons.mp h with rfl | h2
      · exact searchTema_pos minSim q df tf sem mat t st r heq
      · exact ih _ r h2
    · exact ih _ r h

/-- Every record collected over a semester has positive relevance. -/
theorem searchMats_pos (minSim : ℚ) (q : String) (mf df tf : Option String)
    (sem : Semester) :
    ∀ (mats : List Subject) (st : DMState) (r : SResult),
      r ∈ (searchMats minSim q mf df tf sem mats st).1 → 0 < r.relevancia := by
  intro mats
  induction mats with
  | nil =>
    intro st r h
    simp [searchMats] at h
  | cons m ms ih =>
    intro st r h
    rw [searchMats.eq_def] at h
    dsimp only at h
    split at h
    · exact ih _ r h
    · rcases List.mem_append.mp h with h1 | h2
      · exact searchTemas_pos minSim q df tf sem m m.temas st r h1
      · exact ih _ r h2

/-- Every record collected over the whole corpus has positive
relevance. -/
theorem searchSems_pos (minSim : ℚ) (q : String) (sf : Option Int)
    (mf df tf : Option String) :
    ∀ (sems : List Semester) (st : DMState) (r : SResult),
      r ∈ (searchSems minSim q sf mf df tf sems st).1 → 0 < r.relevancia := by
  intro sems
  induction sems with
  | nil =>
    intro st r h
    simp [searchSems] at h
  | cons sem rest ih =>
    intro st r h
    rw [searchSems.eq_def] at h
    dsimp only at h
    split at h
    · exact ih _ r h
    · rcases List.mem_append.mp h with h1 | h2
      · exact searchMats_pos minSim q mf df tf sem sem.materias st r h1
      · exact ih _ r h2

/-- Membership through a descending insertion. -/
theorem mem_insertDesc {x y : SResult} {l : List SResult}
    (h : x ∈ insertDesc y l) : x = y ∨ x ∈ l := by
  induction l with
  | nil => simpa [insertDesc] using h
  | cons z zs ih =>
    rw [insertDesc] at h
    split at h
    · rcases List.mem_cons.mp h with rfl | h2
      · exact Or.inl rfl
      · exact Or.inr h2
    · rcases List.mem_cons.mp h with rfl | h2
      · exact Or.inr (List.mem_cons_self _ _)
      · rcases ih h2 with h3 | h3
        · exact Or.inl h3
        · exact Or.inr (List.mem_cons_of_mem _ h3)

/-- Membership through the stable descending sort. -/
theorem mem_sortDesc {x : SResult} {l : List SResult}
    (h : x ∈ sortDesc l) : x ∈ l := by
  suffices haux : ∀ (l : List SResult) (acc : List SResult),
      x ∈ l.foldl (fun acc r => insertDesc r acc) acc → x ∈ acc ∨ x ∈ l by
    rcases haux l [] h with h1 | h1
    · cases h1
    · exact h1
  intro l
  induction l with
  | nil =>
    intro acc h2
    exact Or.inl h2
  | cons z zs ih =>
    intro acc h2
    rcases ih (insertDesc z acc) h2 with h3 | h3
    · rcases mem_insertDesc h3 with h4 | h4
      · exact Or.inr (h4 ▸ List.mem_cons_self _ _)
      · exact Or.inl h4
    · exact Or.inr (List.mem_cons_of_mem _ h3)

/-- C6. The relevance score computed by the search engine equals, for
every threshold, query, topic stub and subject name, the
specification-side sum (substring, startswith bonus, id and subject-name
substrings, thresholded fuzzy similarities, per-query-word matches,
each counted at most once); and every record returned by `search` has
strictly positive relevance — a topic scoring exactly 0 is excluded
rather than ranked last. -/
theorem C6_relevance_score (minSim : ℚ) (query : String) (tema : TemaInfo)
    (materia_nombre : String) (st : DMState) (q2 : String) (sf : Option Int)
    (mf df tf : Option String) (mx : ℕ) (r : SResult) :
    calcularRelevancia minSim query tema materia_nombre =
      relevanciaSpec minSim query tema materia_nombre ∧
    (r ∈ (search st q2 sf mf df tf mx minSim).1 → 0 < r.relevancia) := by
  refine ⟨calcularRelevancia_eq_spec minSim query tema materia_nombre, ?_⟩
  intro h
  rw [search] at h
  split at h
  · simp at h
  · dsimp only at h
    have h2 : r ∈ sortDesc (searchSems minSim (pyStrip (pyLower q2)) sf mf df tf
        (get_semestres st) st).1 := List.mem_of_mem_take h
    exact searchSems_pos minSim (pyStrip (pyLower q2)) sf mf df tf
      (get_semestres st) st r (mem_sortDesc h2)

/-- Witness for C6 on the concrete corpus `stAlgebra`. -/
theorem C6_witness :
    resBool ∈ (search stAlgebra "algebra" none none none none 50 (3/5)).1 ∧
    0 < resBool.relevancia := by
  have he : (search stAlgebra "algebra" none none none none 50 (3/5)).1 = [resBool] := by
    with_unfolding_all rfl
  have hm : resBool ∈ (search stAlgebra "algebra" none none none none 50 (3/5)).1 := by
    rw [he]
    exact List.mem_singleton.mpr rfl
  exact ⟨hm, (C6_relevance_score (3/5) "algebra" temaConj "x" stAlgebra "algebra"
    none none none none 50 resBool).2 hm⟩

/-- C7, counterexample. The claim says `search("algebra")` on a corpus
with topics "Teoría de Conjuntos" and "Álgebra Booleana" under subject
"Álgebra Superior" returns BOTH topics, ranked by a subject-name
substring match both share; but the lowercased names contain the
accented "álgebra", of which the unaccented query "algebra" is not a
substring — the subject-name bonus applies to neither topic, and
"Teoría de Conjuntos" scores exactly 0 and is excluded: only
"Álgebra Booleana" is returned. -/
theorem C7_counterexample :
    ((search stAlgebra "algebra" none none none none 50 (3/5)).1.map
      (fun r => r.tema_nombre)) = ["Álgebra Booleana"] := by
  with_unfolding_all rfl

/-- C7, amended: on that corpus `search("algebra")` (threshold 0.6)
returns exactly one record, for "Álgebra Booleana", scored 254/23 — a
topic-id substring hit (+8, the id "algebra_booleana" is unaccented)
plus the fuzzy id similarity 14/23 ≥ 0.6 weighted by 5; the subject-name
substring match applies to neither topic because "álgebra superior" does
not contain the unaccented "algebra", and "Teoría de Conjuntos" scores 0
and is excluded from the results. -/
theorem C7_amended :
    (search stAlgebra "algebra" none none none none 50 (3/5)).1 = [resBool] ∧
    calcularRelevancia (3/5) "algebra" temaBool "Álgebra Superior" = 254/23 ∧
    calcularRelevancia (3/5) "algebra" temaConj "Álgebra Superior" = 0 ∧
    pyIn "algebra" (pyLower "Álgebra Superior") = false := by
  refine ⟨?_, ?_, ?_, ?_⟩
  · with_unfolding_all rfl
  · with_unfolding_all rfl
  · with_unfolding_all rfl
  · with_unfolding_all rfl

end WikIA
